import Mathlib

/-!
# esp_ota_ap: the OTA update agent of `main/main.c`

A shallow embedding of `wifi_event_handler`, `http_cleanup`,
`reset_to_last_valid_app`, `task_fatal_error`, `ota_task` and `app_main`.

* The two build switches of the file (`SSL_SERVER`, `SKIP_VERSION_CHECK`) are the
  fields of `Config`; `source_config` is the build the file selects.
* Constants that come from SDK headers (`sizeof` of the image structures, `errno`
  values, event ids) are the fields of `Sdk`.
* Every answer of the outside world (transport reads, results of storage calls) is
  a field of `Env`; the device itself (boot pointer, health of the running slot,
  the sequence of SDK calls made so far) is a `Device`.
* `esp_restart` does not return: a run of the code ends in an `Outcome`.
-/

namespace EspOtaAp

/-! ## Data model -/

abbrev Byte := Fin 256

abbrev esp_err_t := Int

def ESP_OK : esp_err_t := 0

def AP_MAX_POLLS : Nat := 30

def OTA_RECV_TIMEOUT : Nat := 5000

def BUFFSIZE : Nat := 1024

/-- A storage slot, `esp_partition_t`. -/
structure esp_partition_t where
  type : Nat
  subtype : Nat
  address : Nat
  size : Nat
  deriving DecidableEq, Repr

/-- Health of an application slot, `esp_ota_img_states_t`. -/
inductive esp_ota_img_states_t
  | ESP_OTA_IMG_NEW
  | ESP_OTA_IMG_PENDING_VERIFY
  | ESP_OTA_IMG_VALID
  | ESP_OTA_IMG_INVALID
  | ESP_OTA_IMG_ABORTED
  | ESP_OTA_IMG_UNDEFINED
  deriving DecidableEq, Repr

/-- Build switches of `main.c`: `true` when the macro is defined. -/
structure Config where
  SSL_SERVER : Bool
  SKIP_VERSION_CHECK : Bool
  deriving DecidableEq, Repr

/-- The build that `main.c` selects: both macros are defined. -/
def source_config : Config := ⟨true, true⟩

/-- Constants of the SDK headers that `main.c` uses but does not define. -/
structure Sdk where
  sizeof_esp_image_header_t : Nat
  sizeof_esp_image_segment_header_t : Nat
  sizeof_esp_app_desc_t : Nat
  /-- Offset of the field `version` inside `esp_app_desc_t`. -/
  offsetof_version : Nat
  /-- Size of the field `version`, `sizeof(new_app_info.version)`. -/
  sizeof_version : Nat
  ECONNRESET : Int
  ENOTCONN : Int
  ESP_ERR_OTA_VALIDATE_FAILED : esp_err_t
  ESP_ERR_NVS_NO_FREE_PAGES : esp_err_t
  ESP_ERR_NVS_NEW_VERSION_FOUND : esp_err_t
  WIFI_EVENT_AP_STACONNECTED : Int
  WIFI_EVENT_AP_STADISCONNECTED : Int

/-- The values of these constants in ESP-IDF 5 on the ESP32. -/
def esp_idf : Sdk where
  sizeof_esp_image_header_t := 24
  sizeof_esp_image_segment_header_t := 8
  sizeof_esp_app_desc_t := 256
  offsetof_version := 16
  sizeof_version := 32
  ECONNRESET := 104
  ENOTCONN := 128
  ESP_ERR_OTA_VALIDATE_FAILED := 5379
  ESP_ERR_NVS_NO_FREE_PAGES := 4365
  ESP_ERR_NVS_NEW_VERSION_FOUND := 4368
  WIFI_EVENT_AP_STACONNECTED := 14
  WIFI_EVENT_AP_STADISCONNECTED := 15

/-- The threshold of the header check of `ota_task`:
`sizeof(esp_image_header_t) + sizeof(esp_image_segment_header_t) + sizeof(esp_app_desc_t)`. -/
def HEADER_MIN_BYTES (sdk : Sdk) : Nat :=
  sdk.sizeof_esp_image_header_t + sdk.sizeof_esp_image_segment_header_t + sdk.sizeof_esp_app_desc_t

/-- Log lines of `main.c`, one constructor per `ESP_LOGx` statement that is modelled. -/
inductive LogMsg
  | sha256_partition_table
  | sha256_bootloader
  | sha256_current_firmware
  | wifi_init_softap_finished
  | configured_differs_from_running
  | running_partition
  | failed_to_initialise_http
  | failed_to_open_http
  | writing_to_partition
  | ssl_data_read_error
  | new_firmware_version (v : List Byte)
  | running_firmware_version (v : List Byte)
  | last_invalid_firmware_version (v : List Byte)
  | new_version_same_as_invalid
  | previous_attempt_failed (v : List Byte)
  | rolled_back_to_previous
  | running_version_same_as_new
  | esp_ota_begin_failed
  | esp_ota_begin_succeeded
  | package_not_fit_len
  | connection_closed_errno (e : Int)
  | connection_closed
  | connection_closed_all_data_received
  | total_write_length (n : Int)
  | error_receiving_complete_file
  | image_validation_failed
  | esp_ota_end_failed
  | set_boot_partition_failed
  | prepare_to_restart
  | exiting_task_fatal_error
  | waiting_for_pc (AP_polls : Nat)
  | no_pc_connected
  | rollback_cancelled
  | failed_to_cancel_rollback
  deriving DecidableEq, Repr

/-- Calls into the SDK that change something outside the task, in program order. -/
inductive Call
  | log (m : LogMsg)
  | vTaskDelay (ms : Nat)
  | esp_http_client_init
  | esp_http_client_open
  | esp_http_client_fetch_headers
  | esp_http_client_read (len : Nat)
  | esp_http_client_close
  | esp_http_client_cleanup
  | esp_ota_begin (p : esp_partition_t)
  | esp_ota_write (handle : Nat) (data : List Byte)
  | esp_ota_end (handle : Nat)
  | esp_ota_abort (handle : Nat)
  | esp_ota_set_boot_partition (p : Option esp_partition_t)
  | esp_ota_mark_app_valid_cancel_rollback
  | esp_ota_mark_app_invalid_rollback_and_reboot
  | esp_restart
  | xTaskCreate_ota_task
  deriving DecidableEq, Repr

/-- The device: boot pointer, running slot and its health, and the calls made so far. -/
structure Device where
  /-- The boot pointer: what `esp_ota_get_boot_partition` returns. -/
  boot : esp_partition_t
  /-- What `esp_ota_get_running_partition` returns. -/
  running : esp_partition_t
  /-- Health of the running slot. -/
  running_state : esp_ota_img_states_t
  calls : List Call
  deriving DecidableEq, Repr

/-- Answers of the outside world during one iteration of the read loop of `ota_task`. -/
structure Round where
  /-- Return value of `esp_http_client_read`. -/
  data_read : Int
  /-- The bytes the read stored at the start of `ota_write_data`. -/
  bytes : List Byte
  /-- Value of `errno` after the read. -/
  errno : Int
  /-- What `esp_http_client_is_complete_data_received` answers in this iteration. -/
  complete : Bool
  /-- Result of the `esp_ota_write` of this iteration, when it is called. -/
  write_err : esp_err_t

/-- Answers of the outside world to one run of `ota_task`. -/
structure Env where
  /-- The call `esp_http_client_init` returned a handle (not `NULL`). -/
  client_init_ok : Bool
  client_open_err : esp_err_t
  /-- Result of `esp_ota_get_next_update_partition(NULL)`. -/
  next_update_partition : Option esp_partition_t
  /-- Result of `esp_ota_get_last_invalid_partition()`. -/
  last_invalid_partition : Option esp_partition_t
  /-- The `version` field `esp_ota_get_partition_description` reads from a slot, `none` on error. -/
  partition_version : esp_partition_t → Option (List Byte)
  /-- What the uninitialised `running_app_info.version` holds. -/
  running_app_info_stack : List Byte
  /-- What the uninitialised `invalid_app_info.version` holds. -/
  invalid_app_info_stack : List Byte
  ota_begin_err : esp_err_t
  /-- The handle `esp_ota_begin` stores on success. -/
  ota_handle : Nat
  ota_end_err : esp_err_t
  /-- Result of `esp_ota_set_boot_partition` on a slot pointer (`none` is `NULL`). -/
  set_boot_err : Option esp_partition_t → esp_err_t
  /-- What `esp_http_client_is_complete_data_received` answers after the loop. -/
  complete_at_exit : Bool
  rounds : List Round

/-- Local variables of `ota_task` that live across iterations of the read loop. -/
structure LoopState where
  dev : Device
  update_handle : Nat
  image_header_was_checked : Bool
  binary_file_length : Int
  deriving DecidableEq, Repr

/-- How a run of the code ends. -/
inductive Outcome
  /-- The code reached `esp_restart` with the device in this state. -/
  | restarted (d : Device)
  /-- A failed `assert` or `ESP_ERROR_CHECK`. -/
  | aborted (d : Device)
  /-- The task is blocked in `esp_http_client_read`: the rounds of `Env` are used up. -/
  | reading (st : LoopState)
  /-- The wait loop of `app_main` is still polling. -/
  | polling (d : Device)
  deriving DecidableEq, Repr

/-- How the read loop ends. -/
inductive LoopExit
  /-- The loop was left by `break`. -/
  | exited (st : LoopState)
  /-- An error path ran `task_fatal_error`; the device restarted in this state. -/
  | fatal (d : Device)
  | starved (st : LoopState)
  deriving DecidableEq, Repr

/-- Answers of the outside world to one run of `app_main`. -/
structure BootEnv where
  /-- Result of the first `nvs_flash_init()`. -/
  nvs_flash_init : esp_err_t
  nvs_flash_erase : esp_err_t
  /-- Result of the second `nvs_flash_init()`. -/
  nvs_flash_init_again : esp_err_t
  /-- Every `ESP_ERROR_CHECK` of `wifi_init_softap` passes. -/
  wifi_init_softap_ok : Bool
  /-- The value of the flag `AP_connected` at the `n`-th evaluation of the condition of the
  wait loop, counted from 1; the event handler sets it from another task. -/
  AP_connected : Nat → Bool
  /-- Result of `esp_ota_get_state_partition(running, &ota_state)`. -/
  get_state_err : esp_err_t
  /-- Result of `esp_ota_mark_app_valid_cancel_rollback()`. -/
  mark_valid_err : esp_err_t
  /-- The last known-good slot, to which the SDK rolls back. -/
  last_known_good : esp_partition_t
  /-- The answers to the update task. -/
  ota : Env

/-- The flag shared with the event handler, and how often the critical section of
`spinlock` was entered and exited. -/
structure Shared where
  AP_connected : Bool
  entered : Nat
  exited : Nat
  deriving DecidableEq, Repr

/-- How the wait loop of `app_main` ends. -/
inductive Wait
  /-- The flag was seen set: the loop condition failed. -/
  | connected (d : Device)
  /-- The budget ran out: `reset_to_last_valid_app` restarted the device. -/
  | restarted (d : Device)
  | starved (d : Device)
  deriving DecidableEq, Repr

/-- Result of one iteration of the read loop. -/
inductive Step
  | next (st : LoopState)
  | leave (st : LoopState)
  | fatal (d : Device)
  deriving DecidableEq, Repr

/-! ## The code of `main.c` -/

/-- Record one more call. -/
def Device.call (d : Device) (c : Call) : Device :=
  { d with calls := d.calls ++ [c] }

/-- Record one log line. -/
def Device.log (d : Device) (m : LogMsg) : Device :=
  d.call (.log m)

/-- Modelled from the spec: the SDK call behind `set_boot_target(slot)`, which "atomically
repoints the boot pointer" when it succeeds and leaves it as it was when it fails; a `NULL`
slot never repoints it. -/
def esp_ota_set_boot_partition (env : Env) (d : Device) (p : Option esp_partition_t) :
    esp_err_t × Device :=
  let d := d.call (.esp_ota_set_boot_partition p)
  match p with
  | none => (env.set_boot_err none, d)
  | some q =>
    if env.set_boot_err (some q) = ESP_OK then (ESP_OK, { d with boot := q })
    else (env.set_boot_err (some q), d)

/-- The comparison `memcmp(a, b, n)`: `0` exactly when the first `n` bytes agree (only the
comparison of the result with `0` is used by the code). -/
def memcmp (a b : List Byte) (n : Nat) : Int :=
  if a.take n = b.take n then 0 else 1

/-- An `int` after an addition, on the 32-bit target. -/
def int32 (x : Int) : Int :=
  (x + 2147483648) % 4294967296 - 2147483648

/-- The function `http_cleanup`. -/
def http_cleanup (d : Device) : Device :=
  (d.call .esp_http_client_close).call .esp_http_client_cleanup

/-- The function `reset_to_last_valid_app`; the result is the device at `esp_restart`. -/
def reset_to_last_valid_app (env : Env) (d : Device) : Device :=
  let last_valid_app := env.last_invalid_partition
  let (err, d) := esp_ota_set_boot_partition env d last_valid_app
  let d := if err ≠ ESP_OK then d.log .set_boot_partition_failed else d
  d.call .esp_restart

/-- The function `task_fatal_error`; it does not return, because
`reset_to_last_valid_app` restarts the device. -/
def task_fatal_error (env : Env) (d : Device) : Device :=
  let d := d.log .exiting_task_fatal_error
  let d := d.call (.vTaskDelay 5000)
  reset_to_last_valid_app env d

/-- The bytes `memcpy` puts in `new_app_info`, read from `ota_write_data`. -/
def new_app_info (sdk : Sdk) (ota_write_data : List Byte) : List Byte :=
  (ota_write_data.drop
    (sdk.sizeof_esp_image_header_t + sdk.sizeof_esp_image_segment_header_t)).take
    sdk.sizeof_esp_app_desc_t

/-- The field `new_app_info.version`. -/
def new_app_info_version (sdk : Sdk) (ota_write_data : List Byte) : List Byte :=
  ((new_app_info sdk ota_write_data).drop sdk.offsetof_version).take sdk.sizeof_version

/-- What `running_app_info.version` holds after
`esp_ota_get_partition_description(running, &running_app_info)`: the version of the running
slot, or what the variable held before when the call fails. -/
def running_app_info_version (env : Env) (running : esp_partition_t) : List Byte :=
  match env.partition_version running with
  | some v => v
  | none => env.running_app_info_stack

/-- What `invalid_app_info.version` holds after
`esp_ota_get_partition_description(last_invalid_app, &invalid_app_info)`; the call fails on
`NULL`. -/
def invalid_app_info_version (env : Env) : List Byte :=
  match env.last_invalid_partition.bind env.partition_version with
  | some v => v
  | none => env.invalid_app_info_stack

/-- The condition under which the block `#ifndef SKIP_VERSION_CHECK` ends the attempt: the
block is compiled, there is a last invalid slot, and `memcmp` finds its version equal to
the new one. -/
def same_as_invalid_version (cfg : Config) (sdk : Sdk) (env : Env)
    (ota_write_data : List Byte) : Prop :=
  cfg.SKIP_VERSION_CHECK = false ∧ env.last_invalid_partition ≠ none ∧
    memcmp (invalid_app_info_version env) (new_app_info_version sdk ota_write_data)
      sdk.sizeof_version = 0

instance same_as_invalid_version_decidable (cfg : Config) (sdk : Sdk) (env : Env)
    (ota_write_data : List Byte) :
    Decidable (same_as_invalid_version cfg sdk env ota_write_data) :=
  inferInstanceAs (Decidable (_ ∧ _ ∧ _))

/-- The log lines about the three versions, at the start of the header block. -/
def log_versions (sdk : Sdk) (env : Env) (running : esp_partition_t) (d : Device)
    (ota_write_data : List Byte) : Device :=
  let d := d.log (.new_firmware_version (new_app_info_version sdk ota_write_data))
  let d := match env.partition_version running with
    | some v => d.log (.running_firmware_version v)
    | none => d
  match env.last_invalid_partition.bind env.partition_version with
  | some v => d.log (.last_invalid_firmware_version v)
  | none => d

/-- The block `if (image_header_was_checked == false) { ... }` of `ota_task`: an error is the
device at the restart of a fatal path. In the comparison of `data_read` with the `sizeof` sum
`data_read` is positive, so its conversion to `size_t` keeps its value. -/
def check_image_header (cfg : Config) (sdk : Sdk) (env : Env)
    (running update_partition : esp_partition_t) (st : LoopState) (r : Round) :
    Except Device LoopState :=
  if r.data_read > (HEADER_MIN_BYTES sdk : Int) then
    let new_version := new_app_info_version sdk r.bytes
    let d := log_versions sdk env running st.dev r.bytes
    if same_as_invalid_version cfg sdk env r.bytes then
      let d := d.log .new_version_same_as_invalid
      let d := d.log (.previous_attempt_failed (invalid_app_info_version env))
      let d := d.log .rolled_back_to_previous
      .error (task_fatal_error env (http_cleanup d))
    else
      let d := if cfg.SKIP_VERSION_CHECK = true ∧
          memcmp new_version (running_app_info_version env running) sdk.sizeof_version = 0
        then d.log .running_version_same_as_new else d
      let d := d.call (.esp_ota_begin update_partition)
      if env.ota_begin_err ≠ ESP_OK then
        let d := d.log .esp_ota_begin_failed
        let d := http_cleanup d
        let d := d.call (.esp_ota_abort st.update_handle)
        .error (task_fatal_error env d)
      else
        .ok { st with dev := d.log .esp_ota_begin_succeeded,
                      update_handle := env.ota_handle,
                      image_header_was_checked := true }
  else
    let d := st.dev.log .package_not_fit_len
    let d := http_cleanup d
    let d := d.call (.esp_ota_abort st.update_handle)
    .error (task_fatal_error env d)

/-- The branch `else if (data_read > 0)` of the read loop. -/
def on_data (cfg : Config) (sdk : Sdk) (env : Env)
    (running update_partition : esp_partition_t) (st : LoopState) (r : Round) :
    Except Device LoopState :=
  let checked : Except Device LoopState :=
    if st.image_header_was_checked = false then
      check_image_header cfg sdk env running update_partition st r
    else .ok st
  match checked with
  | .error d => .error d
  | .ok st =>
    let d := st.dev.call (.esp_ota_write st.update_handle (r.bytes.take r.data_read.toNat))
    if r.write_err ≠ ESP_OK then
      let d := http_cleanup d
      let d := d.call (.esp_ota_abort st.update_handle)
      .error (task_fatal_error env d)
    else
      .ok { st with dev := d,
                    binary_file_length := int32 (st.binary_file_length + r.data_read) }

/-- The block under `#ifdef SSL_SERVER` that ends the loop after a short read. -/
def ssl_server_check (cfg : Config) (st : LoopState) (r : Round) : Step :=
  if cfg.SSL_SERVER = true ∧ r.data_read ≥ 0 ∧ r.data_read < (BUFFSIZE : Int) then
    .leave { st with dev := st.dev.log .connection_closed_all_data_received }
  else .next st

/-- One iteration of `while (1)` in `ota_task`. -/
def iteration (cfg : Config) (sdk : Sdk) (env : Env)
    (running update_partition : esp_partition_t) (st : LoopState) (r : Round) : Step :=
  let st := { st with dev := st.dev.call (.esp_http_client_read BUFFSIZE) }
  if r.data_read < 0 then
    .fatal (task_fatal_error env (http_cleanup (st.dev.log .ssl_data_read_error)))
  else if r.data_read > 0 then
    match on_data cfg sdk env running update_partition st r with
    | .error d => .fatal d
    | .ok st => ssl_server_check cfg st r
  else
    if r.errno = sdk.ECONNRESET ∨ r.errno = sdk.ENOTCONN then
      .leave { st with dev := st.dev.log (.connection_closed_errno r.errno) }
    else if r.complete = true then
      .leave { st with dev := st.dev.log .connection_closed }
    else ssl_server_check cfg st r

/-- The loop `while (1)` of `ota_task`, one round of `Env` per iteration. -/
def read_loop (cfg : Config) (sdk : Sdk) (env : Env)
    (running update_partition : esp_partition_t) : LoopState → List Round → LoopExit
  | st, [] => .starved st
  | st, r :: rs =>
    match iteration cfg sdk env running update_partition st r with
    | .next st => read_loop cfg sdk env running update_partition st rs
    | .leave st => .exited st
    | .fatal d => .fatal d

/-- The code of `ota_task` after the read loop; the result is the device at `esp_restart`. -/
def finish_update (cfg : Config) (sdk : Sdk) (env : Env)
    (update_partition : esp_partition_t) (st : LoopState) : Device :=
  let d := if cfg.SSL_SERVER = false then st.dev.log (.total_write_length st.binary_file_length)
    else st.dev
  if cfg.SSL_SERVER = false ∧ env.complete_at_exit ≠ true then
    let d := d.log .error_receiving_complete_file
    let d := http_cleanup d
    let d := d.call (.esp_ota_abort st.update_handle)
    task_fatal_error env d
  else
    let d := d.call (.esp_ota_end st.update_handle)
    if env.ota_end_err ≠ ESP_OK then
      let d := if env.ota_end_err = sdk.ESP_ERR_OTA_VALIDATE_FAILED
        then d.log .image_validation_failed else d.log .esp_ota_end_failed
      task_fatal_error env (http_cleanup d)
    else
      let res := esp_ota_set_boot_partition env d (some update_partition)
      if res.1 ≠ ESP_OK then
        task_fatal_error env (http_cleanup (res.2.log .set_boot_partition_failed))
      else
        (res.2.log .prepare_to_restart).call .esp_restart

/-- The state of the local variables of `ota_task` when the read loop is entered. -/
def loop_entry (d : Device) : LoopState :=
  { dev := d, update_handle := 0, image_header_was_checked := false, binary_file_length := 0 }

/-- The function `ota_task`. -/
def ota_task (cfg : Config) (sdk : Sdk) (env : Env) (d : Device) : Outcome :=
  let configured := d.boot
  let running := d.running
  let d := if configured ≠ running then d.log .configured_differs_from_running else d
  let d := d.log .running_partition
  let d := d.call .esp_http_client_init
  if env.client_init_ok = false then
    .restarted (task_fatal_error env (d.log .failed_to_initialise_http))
  else
    let d := d.call .esp_http_client_open
    if env.client_open_err ≠ ESP_OK then
      let d := d.log .failed_to_open_http
      let d := d.call .esp_http_client_cleanup
      .restarted (task_fatal_error env d)
    else
      let d := d.call .esp_http_client_fetch_headers
      match env.next_update_partition with
      | none => .aborted d
      | some update_partition =>
        let d := d.log .writing_to_partition
        match read_loop cfg sdk env running update_partition (loop_entry d) env.rounds with
        | .fatal d => .restarted d
        | .starved st => .reading st
        | .exited st => .restarted (finish_update cfg sdk env update_partition st)

/-! ### The event handler -/

/-- The macro `portENTER_CRITICAL(&spinlock)`. -/
def portENTER_CRITICAL (s : Shared) : Shared :=
  { s with entered := s.entered + 1 }

/-- The macro `portEXIT_CRITICAL(&spinlock)`. -/
def portEXIT_CRITICAL (s : Shared) : Shared :=
  { s with exited := s.exited + 1 }

/-- Nesting depth of the critical section: entries that were not yet exited. -/
def Shared.nesting (s : Shared) : Int :=
  (s.entered : Int) - (s.exited : Int)

/-- The function `wifi_event_handler` (its log lines are left out). -/
def wifi_event_handler (sdk : Sdk) (s : Shared) (event_id : Int) : Shared :=
  if event_id = sdk.WIFI_EVENT_AP_STACONNECTED then
    let s := portENTER_CRITICAL s
    let s := { s with AP_connected := true }
    portEXIT_CRITICAL s
  else if event_id = sdk.WIFI_EVENT_AP_STADISCONNECTED then
    let s := portENTER_CRITICAL s
    let s := { s with AP_connected := false }
    portENTER_CRITICAL s
  else s

/-! ### Startup -/

/-- Modelled from the spec: the SDK call behind `mark_valid_cancel_pending(slot)`, which
"transitions PendingVerify → Valid" for the running slot when it succeeds. -/
def esp_ota_mark_app_valid_cancel_rollback (env : BootEnv) (d : Device) : esp_err_t × Device :=
  let d := d.call .esp_ota_mark_app_valid_cancel_rollback
  if env.mark_valid_err = ESP_OK then
    (ESP_OK, { d with running_state := .ESP_OTA_IMG_VALID })
  else (env.mark_valid_err, d)

/-- Modelled from the spec: the SDK call behind `mark_invalid_and_reboot(slot)`, which
"transitions PendingVerify → Invalid, repoints boot target to the last-known-good slot, and
triggers a restart — never returns"; the result is the device at that restart. -/
def esp_ota_mark_app_invalid_rollback_and_reboot (env : BootEnv) (d : Device) : Device :=
  let d := d.call .esp_ota_mark_app_invalid_rollback_and_reboot
  { d with running_state := .ESP_OTA_IMG_INVALID, boot := env.last_known_good }

/-- The loop `while (AP_connected == false)` of `app_main`; `AP_polls` is a `uint32_t`. The
first argument bounds the number of iterations that are unfolded. -/
def wait_for_AP (env : BootEnv) : Nat → Nat → Device → Wait
  | 0, _, d => .starved d
  | fuel + 1, AP_polls, d =>
    if env.AP_connected AP_polls = false then
      let d := d.log (.waiting_for_pc AP_polls)
      let AP_polls := (AP_polls + 1) % 4294967296
      let d := d.call (.vTaskDelay 1000)
      if AP_polls > AP_MAX_POLLS then
        let d := d.log .no_pc_connected
        .restarted (reset_to_last_valid_app env.ota d)
      else wait_for_AP env fuel AP_polls d
    else .connected d

/-- The initialisation of NVS and of the access point in `app_main`: `true` when every
`ESP_ERROR_CHECK` passes. -/
def startup_checks (sdk : Sdk) (env : BootEnv) : Bool :=
  let err := env.nvs_flash_init
  if err = sdk.ESP_ERR_NVS_NO_FREE_PAGES ∨ err = sdk.ESP_ERR_NVS_NEW_VERSION_FOUND then
    if env.nvs_flash_erase ≠ ESP_OK then false
    else if env.nvs_flash_init_again ≠ ESP_OK then false
    else env.wifi_init_softap_ok
  else if err ≠ ESP_OK then false
  else env.wifi_init_softap_ok

/-- The function `app_main`, followed by the run of the task it creates. -/
def app_main (cfg : Config) (sdk : Sdk) (env : BootEnv) (d : Device) : Outcome :=
  let d := d.log .sha256_partition_table
  let d := d.log .sha256_bootloader
  let d := d.log .sha256_current_firmware
  if startup_checks sdk env = false then .aborted d
  else
    let d := d.log .wifi_init_softap_finished
    match wait_for_AP env AP_MAX_POLLS 1 d with
    | .starved d => .polling d
    | .restarted d => .restarted d
    | .connected d =>
      let ota_state := d.running_state
      if env.get_state_err = ESP_OK ∧ ota_state = .ESP_OTA_IMG_PENDING_VERIFY then
        let res := esp_ota_mark_app_valid_cancel_rollback env d
        if res.1 = ESP_OK then
          let d := res.2.log .rollback_cancelled
          ota_task cfg sdk env.ota (d.call .xTaskCreate_ota_task)
        else
          let d := res.2.log .failed_to_cancel_rollback
          .restarted (esp_ota_mark_app_invalid_rollback_and_reboot env d)
      else
        ota_task cfg sdk env.ota (d.call .xTaskCreate_ota_task)

/-! ## Reading a sequence of calls -/

/-- Calls that act on a slot, on the boot pointer or on the life of the device; the rest is
logging, waiting and transport. -/
def Call.is_slot_call : Call → Bool
  | .esp_ota_begin _ => true
  | .esp_ota_write _ _ => true
  | .esp_ota_end _ => true
  | .esp_ota_abort _ => true
  | .esp_ota_set_boot_partition _ => true
  | .esp_ota_mark_app_valid_cancel_rollback => true
  | .esp_ota_mark_app_invalid_rollback_and_reboot => true
  | .esp_restart => true
  | .xTaskCreate_ota_task => true
  | _ => false

/-- The calls on slots, boot pointer and device, in program order. -/
def slot_calls (cs : List Call) : List Call :=
  cs.filter Call.is_slot_call

/-- Log lines. -/
def Call.is_log : Call → Bool
  | .log _ => true
  | _ => false

/-- Everything but the log lines, in program order. -/
def effects (cs : List Call) : List Call :=
  cs.filter (fun c => !c.is_log)

/-- The bytes handed to `esp_ota_write`, in program order. -/
def written : List Call → List Byte
  | [] => []
  | .esp_ota_write _ data :: cs => data ++ written cs
  | _ :: cs => written cs

/-! ## Names for intermediate devices -/

/-- The calls `task_fatal_error` adds. -/
def fatal_tail (env : Env) : List Call :=
  [.log .exiting_task_fatal_error, .vTaskDelay 5000,
    .esp_ota_set_boot_partition env.last_invalid_partition] ++
  (if env.set_boot_err env.last_invalid_partition ≠ ESP_OK
    then [.log .set_boot_partition_failed] else []) ++ [.esp_restart]

/-- The device when `ota_task` enters its read loop, after the connection was opened. -/
def entry_device (d : Device) : Device :=
  ((((((if d.boot ≠ d.running then d.log .configured_differs_from_running else d).log
    .running_partition).call .esp_http_client_init).call .esp_http_client_open).call
    .esp_http_client_fetch_headers).log .writing_to_partition)

/-- The device after the log lines of the refused version, before `http_cleanup`. -/
def refused_device (sdk : Sdk) (env : Env) (running : esp_partition_t) (d : Device)
    (data : List Byte) : Device :=
  (((log_versions sdk env running d data).log .new_version_same_as_invalid).log
    (.previous_attempt_failed (invalid_app_info_version env))).log .rolled_back_to_previous

/-- The device right after the call of `esp_ota_begin`, when the version was not refused. -/
def begin_device (cfg : Config) (sdk : Sdk) (env : Env) (running update_partition : esp_partition_t)
    (d : Device) (data : List Byte) : Device :=
  (if cfg.SKIP_VERSION_CHECK = true ∧
      memcmp (new_app_info_version sdk data) (running_app_info_version env running)
        sdk.sizeof_version = 0
    then (log_versions sdk env running d data).log .running_version_same_as_new
    else log_versions sdk env running d data).call (.esp_ota_begin update_partition)

/-- The device at the restart of the path `received package is not fit len`. -/
def malformed_exit (env : Env) (st : LoopState) : Device :=
  task_fatal_error env
    ((http_cleanup (st.dev.log .package_not_fit_len)).call (.esp_ota_abort st.update_handle))

/-- The device at the restart of the path of the refused version. -/
def refused_exit (sdk : Sdk) (env : Env) (running : esp_partition_t) (st : LoopState)
    (r : Round) : Device :=
  task_fatal_error env (http_cleanup (refused_device sdk env running st.dev r.bytes))

/-- The device at the restart of the path `esp_ota_begin failed`. -/
def begin_failed_exit (cfg : Config) (sdk : Sdk) (env : Env)
    (running update_partition : esp_partition_t) (st : LoopState) (r : Round) : Device :=
  task_fatal_error env
    ((http_cleanup ((begin_device cfg sdk env running update_partition st.dev r.bytes).log
      .esp_ota_begin_failed)).call (.esp_ota_abort st.update_handle))

/-- The loop state after a header that was parsed and a slot that was opened. -/
def header_parsed (cfg : Config) (sdk : Sdk) (env : Env)
    (running update_partition : esp_partition_t) (st : LoopState) (r : Round) : LoopState :=
  { st with dev := (begin_device cfg sdk env running update_partition st.dev r.bytes).log
                     .esp_ota_begin_succeeded,
            update_handle := env.ota_handle,
            image_header_was_checked := true }

/-- The number of calls of `esp_http_client_read` in a sequence of calls. -/
def reads_made : List Call → Nat
  | [] => 0
  | .esp_http_client_read _ :: cs => reads_made cs + 1
  | _ :: cs => reads_made cs

/-- The bytes a round delivers: the first `data_read` bytes of the buffer. -/
def Round.received (r : Round) : List Byte :=
  r.bytes.take r.data_read.toNat

/-- The bytes a sequence of rounds delivers, in arrival order. -/
def received : List Round → List Byte
  | [] => []
  | r :: rs => r.received ++ received rs

/-- One `esp_ota_write` per round that delivers bytes, with exactly these bytes. -/
def write_calls (handle : Nat) : List Round → List Call
  | [] => []
  | r :: rs =>
    if r.data_read > 0 then .esp_ota_write handle r.received :: write_calls handle rs
    else write_calls handle rs

/-- The number of bytes a sequence of rounds delivers. -/
def total_length : List Round → Int
  | [] => 0
  | r :: rs => r.data_read + total_length rs

/-- The loop state after the read of the first chunk, its header check and `esp_ota_begin`. -/
def opened (cfg : Config) (sdk : Sdk) (env : Env) (running update_partition : esp_partition_t)
    (st : LoopState) (r : Round) : LoopState :=
  header_parsed cfg sdk env running update_partition
    { st with dev := st.dev.call (.esp_http_client_read BUFFSIZE) } r

/-- The loop state after the `esp_ota_write` of a round and the update of the length. -/
def wrote (st : LoopState) (r : Round) : LoopState :=
  { st with dev := st.dev.call (.esp_ota_write st.update_handle r.received),
            binary_file_length := int32 (st.binary_file_length + r.data_read) }

/-! ## Concrete inputs -/

def ota_0 : esp_partition_t := ⟨0, 16, 65536, 1048576⟩

def ota_1 : esp_partition_t := ⟨0, 17, 1114112, 1048576⟩

def ota_2 : esp_partition_t := ⟨0, 18, 2162688, 1048576⟩

/-- The build with `SSL_SERVER` and without `SKIP_VERSION_CHECK`. -/
def checking_config : Config := ⟨true, false⟩

/-- A read of `n` bytes, all equal to `b`, with no transport error, followed by a write that
succeeds. -/
def chunk (n : Nat) (b : Byte) : Round :=
  ⟨n, List.replicate n b, 0, false, ESP_OK⟩

/-- A device that runs a confirmed image from `ota_0` and has made no call yet. -/
def dev0 : Device := ⟨ota_0, ota_0, .ESP_OTA_IMG_VALID, []⟩

/-- An environment in which every call succeeds: the update goes to `ota_1`, no slot is
invalid, and only a `NULL` slot is refused as boot target. -/
def env_ok (rounds : List Round) : Env where
  client_init_ok := true
  client_open_err := ESP_OK
  next_update_partition := some ota_1
  last_invalid_partition := none
  partition_version := fun _ => none
  running_app_info_stack := []
  invalid_app_info_stack := []
  ota_begin_err := ESP_OK
  ota_handle := 1
  ota_end_err := ESP_OK
  set_boot_err := fun p => if p = none then 258 else ESP_OK
  complete_at_exit := true
  rounds := rounds

/-- The build without `SSL_SERVER` and with `SKIP_VERSION_CHECK`. -/
def plain_config : Config := ⟨false, true⟩

/-- A read of 0 bytes at the end of the data: no transport error, data complete. -/
def eof_round : Round :=
  ⟨0, [], 0, true, ESP_OK⟩

/-- A read of 0 bytes after which `errno` is `ECONNRESET` (104 in `esp_idf`). -/
def reset_round : Round :=
  ⟨0, [], 104, false, ESP_OK⟩

/-- As `env_ok`, with `ota_2` the last invalid slot, holding the version of 32 zero bytes. -/
def env_invalid_ota_2 (rounds : List Round) : Env :=
  { env_ok rounds with
    last_invalid_partition := some ota_2
    partition_version := fun p => if p = ota_2 then some (List.replicate 32 0) else none }

/-- As `env_invalid_ota_2`, with an `esp_ota_end` that fails with
`ESP_ERR_OTA_VALIDATE_FAILED` (5379 in `esp_idf`). -/
def env_validation_fails (rounds : List Round) : Env :=
  { env_invalid_ota_2 rounds with ota_end_err := 5379 }

/-- A device that runs a new image from `ota_1`, not confirmed yet, and has made no call. -/
def dev_pending : Device := ⟨ota_1, ota_1, .ESP_OTA_IMG_PENDING_VERIFY, []⟩

/-- A startup in which every initialisation succeeds, the state of the running slot can be
read and marked valid, and `ota_0` is the last known-good slot; `flag` is what the wait loop
sees in `AP_connected`. -/
def boot_env (flag : Nat → Bool) (ota : Env) : BootEnv where
  nvs_flash_init := ESP_OK
  nvs_flash_erase := ESP_OK
  nvs_flash_init_again := ESP_OK
  wifi_init_softap_ok := true
  AP_connected := flag
  get_state_err := ESP_OK
  mark_valid_err := ESP_OK
  last_known_good := ota_0
  ota := ota

/-! ## Lemmas on the helper functions of `main.c` -/

@[simp]
theorem call_calls (d : Device) (c : Call) : (d.call c).calls = d.calls ++ [c] := rfl

@[simp]
theorem call_boot (d : Device) (c : Call) : (d.call c).boot = d.boot := rfl

@[simp]
theorem call_running (d : Device) (c : Call) : (d.call c).running = d.running := rfl

@[simp]
theorem call_running_state (d : Device) (c : Call) :
    (d.call c).running_state = d.running_state := rfl

@[simp]
theorem log_calls (d : Device) (m : LogMsg) : (d.log m).calls = d.calls ++ [.log m] := rfl

@[simp]
theorem log_boot (d : Device) (m : LogMsg) : (d.log m).boot = d.boot := rfl

@[simp]
theorem log_running (d : Device) (m : LogMsg) : (d.log m).running = d.running := rfl

@[simp]
theorem log_running_state (d : Device) (m : LogMsg) :
    (d.log m).running_state = d.running_state := rfl

@[simp]
theorem slot_calls_nil : slot_calls [] = [] := rfl

@[simp]
theorem slot_calls_append (a b : List Call) :
    slot_calls (a ++ b) = slot_calls a ++ slot_calls b := by
  simp [slot_calls]

theorem slot_calls_cons (c : Call) (cs : List Call) :
    slot_calls (c :: cs) = if c.is_slot_call = true then c :: slot_calls cs else slot_calls cs := by
  simp only [slot_calls, List.filter_cons]

@[simp]
theorem effects_nil : effects [] = [] := rfl

@[simp]
theorem effects_append (a b : List Call) : effects (a ++ b) = effects a ++ effects b := by
  simp [effects]

theorem effects_cons (c : Call) (cs : List Call) :
    effects (c :: cs) = if c.is_log = true then effects cs else c :: effects cs := by
  cases h : c.is_log <;> simp [effects, List.filter_cons, h]

@[simp]
theorem written_nil : written [] = [] := rfl

@[simp]
theorem written_append (a b : List Call) : written (a ++ b) = written a ++ written b := by
  induction a with
  | nil => simp
  | cons c cs ih => cases c <;> simp [written, ih]

theorem reset_to_last_valid_app_calls (env : Env) (d : Device) :
    (reset_to_last_valid_app env d).calls = d.calls ++
      ([.esp_ota_set_boot_partition env.last_invalid_partition] ++
      (if env.set_boot_err env.last_invalid_partition ≠ ESP_OK
        then [.log .set_boot_partition_failed] else []) ++ [.esp_restart]) := by
  unfold reset_to_last_valid_app esp_ota_set_boot_partition
  cases h : env.last_invalid_partition with
  | none => by_cases h0 : env.set_boot_err none = ESP_OK <;> simp [h0]
  | some q => by_cases h0 : env.set_boot_err (some q) = ESP_OK <;> simp [h0]

theorem task_fatal_error_calls (env : Env) (d : Device) :
    (task_fatal_error env d).calls = d.calls ++ fatal_tail env := by
  simp [task_fatal_error, reset_to_last_valid_app_calls, fatal_tail]

@[simp]
theorem slot_calls_fatal_tail (env : Env) :
    slot_calls (fatal_tail env) =
      [.esp_ota_set_boot_partition env.last_invalid_partition, .esp_restart] := by
  unfold fatal_tail
  by_cases h0 : env.set_boot_err env.last_invalid_partition = ESP_OK <;>
    simp [slot_calls_cons, Call.is_slot_call, h0]

@[simp]
theorem written_fatal_tail (env : Env) : written (fatal_tail env) = [] := by
  unfold fatal_tail
  by_cases h0 : env.set_boot_err env.last_invalid_partition = ESP_OK <;>
    simp [written, h0]

@[simp]
theorem slot_calls_task_fatal_error (env : Env) (d : Device) :
    slot_calls (task_fatal_error env d).calls = slot_calls d.calls ++
      [.esp_ota_set_boot_partition env.last_invalid_partition, .esp_restart] := by
  rw [task_fatal_error_calls, slot_calls_append, slot_calls_fatal_tail]

@[simp]
theorem written_task_fatal_error (env : Env) (d : Device) :
    written (task_fatal_error env d).calls = written d.calls := by
  rw [task_fatal_error_calls, written_append, written_fatal_tail, List.append_nil]

@[simp]
theorem http_cleanup_calls (d : Device) :
    (http_cleanup d).calls = d.calls ++ [.esp_http_client_close, .esp_http_client_cleanup] := by
  simp [http_cleanup]

theorem log_versions_calls (sdk : Sdk) (env : Env) (running : esp_partition_t) (d : Device)
    (data : List Byte) :
    ∃ logs, (log_versions sdk env running d data).calls =
        d.calls ++ .log (.new_firmware_version (new_app_info_version sdk data)) :: logs ∧
      slot_calls logs = [] ∧ effects logs = [] ∧ written logs = [] := by
  unfold log_versions
  cases env.partition_version running <;>
    cases env.last_invalid_partition.bind env.partition_version <;>
    exact ⟨_, by simp; rfl,
      by simp [slot_calls_cons, Call.is_slot_call], by simp [effects_cons, Call.is_log],
      by simp [written]⟩

@[simp]
theorem log_versions_boot (sdk : Sdk) (env : Env) (running : esp_partition_t)
    (d : Device) (data : List Byte) : (log_versions sdk env running d data).boot = d.boot := by
  unfold log_versions
  cases env.partition_version running <;>
    cases env.last_invalid_partition.bind env.partition_version <;> rfl

theorem entry_device_calls (d : Device) :
    ∃ pre, (entry_device d).calls = d.calls ++ pre ∧ slot_calls pre = [] ∧ written pre = [] := by
  unfold entry_device
  by_cases hb : d.boot = d.running
  · exact ⟨_, by simp [hb]; rfl, by simp [slot_calls_cons, Call.is_slot_call],
      by simp [written]⟩
  · exact ⟨_, by simp [hb]; rfl, by simp [slot_calls_cons, Call.is_slot_call],
      by simp [written]⟩

@[simp]
theorem entry_device_boot (d : Device) : (entry_device d).boot = d.boot := by
  unfold entry_device
  by_cases hb : d.boot = d.running <;> simp [hb]

/-- With a connection and an update slot, `ota_task` is its read loop followed by the code
after the loop. -/
theorem ota_task_connected (cfg : Config) (sdk : Sdk) (env : Env) (d : Device)
    (update_partition : esp_partition_t)
    (hinit : env.client_init_ok = true) (hopen : env.client_open_err = ESP_OK)
    (hup : env.next_update_partition = some update_partition) :
    ota_task cfg sdk env d =
      match read_loop cfg sdk env d.running update_partition (loop_entry (entry_device d))
        env.rounds with
      | .fatal d => .restarted d
      | .starved st => .reading st
      | .exited st => .restarted (finish_update cfg sdk env update_partition st) := by
  simp [ota_task, hinit, hopen, hup, entry_device]

theorem check_image_header_refused (cfg : Config) (sdk : Sdk) (env : Env)
    (running update_partition : esp_partition_t) (st : LoopState) (r : Round)
    (hsize : r.data_read > (HEADER_MIN_BYTES sdk : Int))
    (hgate : same_as_invalid_version cfg sdk env r.bytes) :
    check_image_header cfg sdk env running update_partition st r =
      .error (refused_exit sdk env running st r) := by
  simp [check_image_header, hsize, hgate, refused_device, refused_exit]

theorem refused_device_calls (sdk : Sdk) (env : Env) (running : esp_partition_t) (d : Device)
    (data : List Byte) :
    ∃ logs, (refused_device sdk env running d data).calls = d.calls ++ logs ∧
      slot_calls logs = [] ∧ written logs = [] := by
  obtain ⟨logs, hl, hl1, -, hl3⟩ := log_versions_calls sdk env running d data
  refine ⟨.log (.new_firmware_version (new_app_info_version sdk data)) :: logs ++
    [.log .new_version_same_as_invalid,
    .log (.previous_attempt_failed (invalid_app_info_version env)),
    .log .rolled_back_to_previous], ?_, ?_, ?_⟩
  · simp [refused_device, hl]
  · simp [hl1, slot_calls_cons, Call.is_slot_call]
  · simp [hl3, written]

theorem check_image_header_small (cfg : Config) (sdk : Sdk) (env : Env)
    (running update_partition : esp_partition_t) (st : LoopState) (r : Round)
    (hsize : r.data_read ≤ (HEADER_MIN_BYTES sdk : Int)) :
    check_image_header cfg sdk env running update_partition st r =
      .error (malformed_exit env st) := by
  have h : ¬ r.data_read > (HEADER_MIN_BYTES sdk : Int) := by omega
  simp [check_image_header, h, malformed_exit]

theorem check_image_header_passed (cfg : Config) (sdk : Sdk) (env : Env)
    (running update_partition : esp_partition_t) (st : LoopState) (r : Round)
    (hsize : r.data_read > (HEADER_MIN_BYTES sdk : Int))
    (hgate : ¬ same_as_invalid_version cfg sdk env r.bytes) :
    check_image_header cfg sdk env running update_partition st r =
      if env.ota_begin_err ≠ ESP_OK
      then .error (begin_failed_exit cfg sdk env running update_partition st r)
      else .ok (header_parsed cfg sdk env running update_partition st r) := by
  simp only [check_image_header, hsize, hgate, if_true, if_false, begin_failed_exit,
    header_parsed, begin_device]

theorem begin_device_calls (cfg : Config) (sdk : Sdk) (env : Env)
    (running update_partition : esp_partition_t) (d : Device) (data : List Byte) :
    ∃ logs, (begin_device cfg sdk env running update_partition d data).calls =
        d.calls ++ .log (.new_firmware_version (new_app_info_version sdk data)) ::
          (logs ++ [.esp_ota_begin update_partition]) ∧
      slot_calls logs = [] ∧ effects logs = [] ∧ written logs = [] := by
  obtain ⟨logs, hl, hl1, hl2, hl3⟩ := log_versions_calls sdk env running d data
  unfold begin_device
  split
  · exact ⟨logs ++ [.log .running_version_same_as_new], by simp [hl],
      by simp [hl1, slot_calls_cons, Call.is_slot_call],
      by simp [hl2, effects_cons, Call.is_log], by simp [hl3, written]⟩
  · exact ⟨logs, by simp [hl], hl1, hl2, hl3⟩

@[simp]
theorem begin_device_boot (cfg : Config) (sdk : Sdk) (env : Env)
    (running update_partition : esp_partition_t) (d : Device) (data : List Byte) :
    (begin_device cfg sdk env running update_partition d data).boot = d.boot := by
  unfold begin_device
  rw [call_boot]
  split
  · rw [log_boot, log_versions_boot]
  · rw [log_versions_boot]

theorem malformed_exit_calls (env : Env) (st : LoopState) :
    (malformed_exit env st).calls = st.dev.calls ++ .log .package_not_fit_len ::
      ([.esp_http_client_close, .esp_http_client_cleanup, .esp_ota_abort st.update_handle] ++
        fatal_tail env) := by
  simp [malformed_exit, task_fatal_error_calls]

/-- Above the threshold no path of the header block is the path of the malformed stream:
each one logs the new version first. -/
theorem check_image_header_parsed_ne (cfg : Config) (sdk : Sdk) (env : Env)
    (running update_partition : esp_partition_t) (st : LoopState) (r : Round)
    (hsize : r.data_read > (HEADER_MIN_BYTES sdk : Int)) :
    check_image_header cfg sdk env running update_partition st r ≠
      .error (malformed_exit env st) := by
  intro h
  by_cases hgate : same_as_invalid_version cfg sdk env r.bytes
  · rw [check_image_header_refused cfg sdk env running update_partition st r hsize hgate] at h
    have hc := congrArg Device.calls (Except.error.inj h)
    obtain ⟨logs, hl, -, -, -⟩ := log_versions_calls sdk env running st.dev r.bytes
    simp [refused_exit, refused_device, task_fatal_error_calls, malformed_exit, hl] at hc
  · rw [check_image_header_passed cfg sdk env running update_partition st r hsize hgate] at h
    by_cases hb : env.ota_begin_err = ESP_OK
    · simp [hb] at h
    · simp only [hb, ne_eq, not_false_eq_true, if_true] at h
      have hc := congrArg Device.calls (Except.error.inj h)
      obtain ⟨logs, hl, -, -, -⟩ :=
        begin_device_calls cfg sdk env running update_partition st.dev r.bytes
      simp [begin_failed_exit, task_fatal_error_calls, malformed_exit, hl] at hc

/-! ## Lemmas on the read loop -/

theorem BUFFSIZE_cast : (BUFFSIZE : Int) = 1024 := rfl

theorem int32_of_range (x : Int) (h0 : -2147483648 ≤ x) (h1 : x < 2147483648) : int32 x = x := by
  unfold int32; omega

theorem int32_add_int32 (a b : Int) : int32 (int32 a + b) = int32 (a + b) := by
  unfold int32; omega

theorem int32_idem (a : Int) : int32 (int32 a) = int32 a := by
  unfold int32; omega

/-- A round with data, when the header was checked before and the write succeeds. -/
theorem iteration_checked (cfg : Config) (sdk : Sdk) (env : Env)
    (running update_partition : esp_partition_t) (st : LoopState) (r : Round)
    (hflag : st.image_header_was_checked = true) (hpos : r.data_read > 0)
    (hwrite : r.write_err = ESP_OK) :
    iteration cfg sdk env running update_partition st r =
      ssl_server_check cfg
        (wrote { st with dev := st.dev.call (.esp_http_client_read BUFFSIZE) } r) r := by
  have h0 : ¬ r.data_read < 0 := by omega
  simp [iteration, on_data, h0, hpos, hflag, hwrite, wrote, Round.received]

/-- The first round, when its header is parsed, the version is not refused, and
`esp_ota_begin` and the write succeed. -/
theorem iteration_first (cfg : Config) (sdk : Sdk) (env : Env)
    (running update_partition : esp_partition_t) (st : LoopState) (r : Round)
    (hflag : st.image_header_was_checked = false)
    (hsize : r.data_read > (HEADER_MIN_BYTES sdk : Int))
    (hgate : ¬ same_as_invalid_version cfg sdk env r.bytes)
    (hbegin : env.ota_begin_err = ESP_OK) (hwrite : r.write_err = ESP_OK) :
    iteration cfg sdk env running update_partition st r =
      ssl_server_check cfg (wrote (opened cfg sdk env running update_partition st r) r) r := by
  have h0 : ¬ r.data_read < 0 := by have := Int.ofNat_nonneg (HEADER_MIN_BYTES sdk); omega
  have hpos : r.data_read > 0 := by have := Int.ofNat_nonneg (HEADER_MIN_BYTES sdk); omega
  simp [iteration, on_data, h0, hpos, hflag, hwrite, wrote, Round.received, opened,
    check_image_header_passed cfg sdk env running update_partition _ r hsize hgate, hbegin]

theorem opened_facts (cfg : Config) (sdk : Sdk) (env : Env)
    (running update_partition : esp_partition_t) (st : LoopState) (r : Round) :
    (opened cfg sdk env running update_partition st r).image_header_was_checked = true ∧
    (opened cfg sdk env running update_partition st r).update_handle = env.ota_handle ∧
    (opened cfg sdk env running update_partition st r).binary_file_length =
      st.binary_file_length ∧
    (opened cfg sdk env running update_partition st r).dev.boot = st.dev.boot ∧
    slot_calls (opened cfg sdk env running update_partition st r).dev.calls =
      slot_calls st.dev.calls ++ [.esp_ota_begin update_partition] ∧
    written (opened cfg sdk env running update_partition st r).dev.calls =
      written st.dev.calls := by
  obtain ⟨logs, hl, hl1, -, hl3⟩ := begin_device_calls cfg sdk env running update_partition
    (st.dev.call (.esp_http_client_read BUFFSIZE)) r.bytes
  refine ⟨rfl, rfl, rfl, ?_, ?_, ?_⟩
  · simp [opened, header_parsed]
  · simp [opened, header_parsed, hl, hl1, slot_calls_cons, Call.is_slot_call]
  · simp [opened, header_parsed, hl, hl3, written]

/-- The read loop in the build with `SSL_SERVER`, from a state in which the header was
checked: full chunks followed by a shorter read leave the loop at that read. -/
theorem read_loop_checked (cfg : Config) (sdk : Sdk) (env : Env)
    (running update_partition : esp_partition_t) (hssl : cfg.SSL_SERVER = true)
    (last : Round) (rest : List Round)
    (hlast : 0 ≤ last.data_read ∧ last.data_read < (BUFFSIZE : Int) ∧ last.write_err = ESP_OK) :
    ∀ (fs : List Round) (st : LoopState),
      st.image_header_was_checked = true →
      int32 st.binary_file_length = st.binary_file_length →
      (∀ r ∈ fs, r.data_read = (BUFFSIZE : Int) ∧ r.write_err = ESP_OK) →
      ∃ st', read_loop cfg sdk env running update_partition st (fs ++ last :: rest) =
          .exited st' ∧
        st'.update_handle = st.update_handle ∧
        st'.dev.boot = st.dev.boot ∧
        slot_calls st'.dev.calls =
          slot_calls st.dev.calls ++ write_calls st.update_handle (fs ++ [last]) ∧
        written st'.dev.calls = written st.dev.calls ++ received (fs ++ [last]) ∧
        st'.binary_file_length =
          int32 (st.binary_file_length + total_length (fs ++ [last])) := by
  intro fs
  induction fs with
  | nil =>
    intro st hflag hlen _
    obtain ⟨h0, h1, hw⟩ := hlast
    by_cases hpos : last.data_read > 0
    · refine ⟨{ wrote { st with dev := st.dev.call (.esp_http_client_read BUFFSIZE) } last with
          dev := (Device.log (wrote { st with dev := st.dev.call (.esp_http_client_read BUFFSIZE) }
            last).dev .connection_closed_all_data_received) }, ?_, ?_⟩
      · simp only [List.nil_append, read_loop,
          iteration_checked cfg sdk env running update_partition st last hflag hpos hw,
          ssl_server_check, hssl, h1, h0]
        simp
      · simp [wrote, write_calls, received, total_length, hpos, slot_calls_cons,
          Call.is_slot_call, written]
    · have hz : last.data_read = 0 := by omega
      have hn : ¬ last.data_read < 0 := by omega
      have hrec : last.received = [] := by simp [Round.received, hz]
      by_cases he : last.errno = sdk.ECONNRESET ∨ last.errno = sdk.ENOTCONN
      · refine ⟨{ st with dev := (Device.log (st.dev.call (.esp_http_client_read BUFFSIZE))
            (.connection_closed_errno last.errno)) }, ?_, ?_⟩
        · simp only [List.nil_append, read_loop, iteration, hn, hpos, he, if_true, if_false]
        · simp [write_calls, received, total_length, hpos, hz, hrec, slot_calls_cons,
            Call.is_slot_call, written, hlen]
      · by_cases hc : last.complete = true
        · refine ⟨{ st with dev := (Device.log (st.dev.call (.esp_http_client_read BUFFSIZE))
              .connection_closed) }, ?_, ?_⟩
          · simp only [List.nil_append, read_loop, iteration, hn, hpos, he, hc, if_true,
              if_false]
          · simp [write_calls, received, total_length, hpos, hz, hrec, slot_calls_cons,
              Call.is_slot_call, written, hlen]
        · refine ⟨{ st with dev := (Device.log (st.dev.call (.esp_http_client_read BUFFSIZE))
              .connection_closed_all_data_received) }, ?_, ?_⟩
          · simp only [List.nil_append, read_loop, iteration, hn, hpos, he, hc,
              ssl_server_check, hssl, h1, h0]
            simp
          · simp [write_calls, received, total_length, hpos, hz, hrec, slot_calls_cons,
              Call.is_slot_call, written, hlen]
  | cons f fs ih =>
    intro st hflag _ hfull
    obtain ⟨hf, hw⟩ := hfull f (List.mem_cons_self _ _)
    have hpos : f.data_read > 0 := by rw [hf, BUFFSIZE_cast]; omega
    have hnot : ¬ f.data_read < (BUFFSIZE : Int) := by omega
    obtain ⟨st', hloop, hh, hb, hs, hwr, hl⟩ :=
      ih (wrote { st with dev := st.dev.call (.esp_http_client_read BUFFSIZE) } f) hflag
        (by simp [wrote, int32_idem]) (fun r hr => hfull r (List.mem_cons_of_mem _ hr))
    refine ⟨st', ?_, ?_, ?_, ?_, ?_, ?_⟩
    · simp only [List.cons_append, read_loop,
        iteration_checked cfg sdk env running update_partition st f hflag hpos hw,
        ssl_server_check, hnot, and_false, if_false]
      exact hloop
    · simpa [wrote] using hh
    · simpa [wrote] using hb
    · rw [hs]
      simp [wrote, write_calls, hpos, slot_calls_cons, Call.is_slot_call]
    · rw [hwr]
      simp [wrote, received, written]
    · rw [hl]
      simp only [wrote, List.cons_append, total_length, int32_add_int32, Int.add_assoc]
      rfl

/-- The read loop in the build with `SSL_SERVER`, from a state in which the header was not
checked yet: full chunks followed by a shorter read, the first of them with a header that is
parsed and a version that is not refused. -/
theorem read_loop_stream (cfg : Config) (sdk : Sdk) (env : Env)
    (running update_partition : esp_partition_t) (hssl : cfg.SSL_SERVER = true)
    (st : LoopState) (hflag : st.image_header_was_checked = false)
    (fs : List Round) (last : Round) (rest : List Round)
    (hfull : ∀ r ∈ fs, r.data_read = (BUFFSIZE : Int) ∧ r.write_err = ESP_OK)
    (hlast : 0 ≤ last.data_read ∧ last.data_read < (BUFFSIZE : Int) ∧ last.write_err = ESP_OK)
    (hfirst : ∀ r, (fs ++ [last]).head? = some r →
      r.data_read > (HEADER_MIN_BYTES sdk : Int) ∧ ¬ same_as_invalid_version cfg sdk env r.bytes)
    (hbegin : env.ota_begin_err = ESP_OK) :
    ∃ st', read_loop cfg sdk env running update_partition st (fs ++ last :: rest) =
        .exited st' ∧
      st'.update_handle = env.ota_handle ∧
      st'.dev.boot = st.dev.boot ∧
      slot_calls st'.dev.calls = slot_calls st.dev.calls ++
        .esp_ota_begin update_partition :: write_calls env.ota_handle (fs ++ [last]) ∧
      written st'.dev.calls = written st.dev.calls ++ received (fs ++ [last]) ∧
      st'.binary_file_length = int32 (st.binary_file_length + total_length (fs ++ [last])) := by
  have ho1 := fun r => (opened_facts cfg sdk env running update_partition st r).1
  have ho2 := fun r => (opened_facts cfg sdk env running update_partition st r).2.1
  have ho3 := fun r => (opened_facts cfg sdk env running update_partition st r).2.2.1
  have ho4 := fun r => (opened_facts cfg sdk env running update_partition st r).2.2.2.1
  have ho5 := fun r => (opened_facts cfg sdk env running update_partition st r).2.2.2.2.1
  have ho6 := fun r => (opened_facts cfg sdk env running update_partition st r).2.2.2.2.2
  cases fs with
  | nil =>
    obtain ⟨hsize, hgate⟩ := hfirst last rfl
    obtain ⟨h0, h1, hw⟩ := hlast
    have hpos : last.data_read > 0 := by
      have := Int.ofNat_nonneg (HEADER_MIN_BYTES sdk); omega
    refine ⟨{ wrote (opened cfg sdk env running update_partition st last) last with
        dev := (Device.log (wrote (opened cfg sdk env running update_partition st last) last).dev
          .connection_closed_all_data_received) }, ?_, ?_, ?_, ?_, ?_, ?_⟩
    · simp only [List.nil_append, read_loop,
        iteration_first cfg sdk env running update_partition st last hflag hsize hgate hbegin hw,
        ssl_server_check, hssl, h1, h0]
      simp
    · simp [wrote, ho2 last]
    · simp [wrote, ho4 last]
    · simp [wrote, ho5 last, ho2 last, write_calls, hpos, slot_calls_cons, Call.is_slot_call]
    · simp [wrote, ho6 last, received, written]
    · simp [wrote, ho3 last, total_length]
  | cons f fs =>
    obtain ⟨hsize, hgate⟩ := hfirst f rfl
    obtain ⟨hf, hw⟩ := hfull f (List.mem_cons_self _ _)
    have hpos : f.data_read > 0 := by rw [hf, BUFFSIZE_cast]; omega
    have hnot : ¬ f.data_read < (BUFFSIZE : Int) := by omega
    obtain ⟨st', hloop, hh, hb, hs, hwr, hl⟩ :=
      read_loop_checked cfg sdk env running update_partition hssl last rest hlast fs
        (wrote (opened cfg sdk env running update_partition st f) f)
        (by simp [wrote, ho1 f]) (by simp [wrote, int32_idem])
        (fun r hr => hfull r (List.mem_cons_of_mem _ hr))
    refine ⟨st', ?_, ?_, ?_, ?_, ?_, ?_⟩
    · simp only [List.cons_append, read_loop,
        iteration_first cfg sdk env running update_partition st f hflag hsize hgate hbegin hw,
        ssl_server_check, hnot, and_false, if_false]
      exact hloop
    · simpa [wrote, ho2 f] using hh
    · simpa [wrote, ho4 f] using hb
    · rw [hs]
      simp [wrote, ho5 f, ho2 f, write_calls, hpos, slot_calls_cons, Call.is_slot_call]
    · rw [hwr]
      simp [wrote, ho6 f, received, written]
    · rw [hl]
      simp only [wrote, ho3 f, List.cons_append, total_length, int32_add_int32, Int.add_assoc]
      rfl

/-- The code after the loop in the build with `SSL_SERVER`, when `esp_ota_end` and
`esp_ota_set_boot_partition` succeed. -/
theorem finish_update_success (cfg : Config) (sdk : Sdk) (env : Env)
    (update_partition : esp_partition_t) (st : LoopState)
    (hssl : cfg.SSL_SERVER = true) (hend : env.ota_end_err = ESP_OK)
    (hset : env.set_boot_err (some update_partition) = ESP_OK) :
    (finish_update cfg sdk env update_partition st).boot = update_partition ∧
    slot_calls (finish_update cfg sdk env update_partition st).calls =
      slot_calls st.dev.calls ++ [.esp_ota_end st.update_handle,
        .esp_ota_set_boot_partition (some update_partition), .esp_restart] ∧
    written (finish_update cfg sdk env update_partition st).calls = written st.dev.calls := by
  simp [finish_update, hssl, hend, hset, esp_ota_set_boot_partition, slot_calls_cons,
    Call.is_slot_call, written]

theorem total_length_nonneg (rs : List Round) (h : ∀ r ∈ rs, 0 ≤ r.data_read) :
    0 ≤ total_length rs := by
  induction rs with
  | nil => simp [total_length]
  | cons r rs ih =>
    have h1 := h r (List.mem_cons_self _ _)
    have h2 := ih (fun x hx => h x (List.mem_cons_of_mem _ hx))
    simp only [total_length]
    omega

/-! ## Lemmas on what the read loop has consumed when it is left -/

@[simp]
theorem reads_made_nil : reads_made [] = 0 := rfl

@[simp]
theorem reads_made_append (a b : List Call) :
    reads_made (a ++ b) = reads_made a + reads_made b := by
  induction a with
  | nil => simp
  | cons c cs ih =>
    cases c <;> simp [reads_made, ih]
    omega

theorem reads_made_of_effects_nil (l : List Call) (h : effects l = []) : reads_made l = 0 := by
  induction l with
  | nil => rfl
  | cons c cs ih =>
    cases c <;> simp [effects_cons, Call.is_log] at h
    simpa [reads_made] using ih h

theorem header_parsed_facts (cfg : Config) (sdk : Sdk) (env : Env)
    (running update_partition : esp_partition_t) (st : LoopState) (r : Round) :
    reads_made (header_parsed cfg sdk env running update_partition st r).dev.calls =
      reads_made st.dev.calls ∧
    written (header_parsed cfg sdk env running update_partition st r).dev.calls =
      written st.dev.calls ∧
    (header_parsed cfg sdk env running update_partition st r).binary_file_length =
      st.binary_file_length := by
  obtain ⟨logs, hl, -, hl2, hl3⟩ :=
    begin_device_calls cfg sdk env running update_partition st.dev r.bytes
  have hr := reads_made_of_effects_nil logs hl2
  refine ⟨?_, ?_, rfl⟩
  · simp [header_parsed, hl, hr, reads_made]
  · simp [header_parsed, hl, hl3, written]

/-- What the header block leaves of the loop state when it does not end the attempt. -/
theorem header_checked_facts (cfg : Config) (sdk : Sdk) (env : Env)
    (running update_partition : esp_partition_t) (st st0 : LoopState) (r : Round)
    (h : (if st.image_header_was_checked = false
          then check_image_header cfg sdk env running update_partition st r
          else Except.ok st) = .ok st0) :
    reads_made st0.dev.calls = reads_made st.dev.calls ∧
    written st0.dev.calls = written st.dev.calls ∧
    st0.binary_file_length = st.binary_file_length ∧
    st0.update_handle = (if st.image_header_was_checked = false then env.ota_handle
      else st.update_handle) := by
  by_cases hflag : st.image_header_was_checked = false
  · simp only [hflag, if_true] at h ⊢
    by_cases hsize : r.data_read > (HEADER_MIN_BYTES sdk : Int)
    · by_cases hgate : same_as_invalid_version cfg sdk env r.bytes
      · rw [check_image_header_refused cfg sdk env running update_partition st r hsize
          hgate] at h
        cases h
      · rw [check_image_header_passed cfg sdk env running update_partition st r hsize
          hgate] at h
        by_cases hb : env.ota_begin_err = ESP_OK
        · simp only [hb, ne_eq, not_true_eq_false, if_false] at h
          cases h
          obtain ⟨h1, h2, h3⟩ :=
            header_parsed_facts cfg sdk env running update_partition st r
          exact ⟨h1, h2, h3, rfl⟩
        · simp only [hb, ne_eq, not_false_eq_true, if_true] at h
          cases h
    · rw [check_image_header_small cfg sdk env running update_partition st r
        (by omega)] at h
      cases h
  · simp only [hflag, if_false] at h ⊢
    cases h
    exact ⟨rfl, rfl, rfl, rfl⟩

/-- What a round with data adds when `esp_ota_write` succeeds. -/
theorem on_data_ok (cfg : Config) (sdk : Sdk) (env : Env)
    (running update_partition : esp_partition_t) (st st1 : LoopState) (r : Round)
    (h : on_data cfg sdk env running update_partition st r = .ok st1) :
    reads_made st1.dev.calls = reads_made st.dev.calls ∧
    written st1.dev.calls = written st.dev.calls ++ r.received ∧
    st1.binary_file_length = int32 (st.binary_file_length + r.data_read) := by
  unfold on_data at h
  simp only at h
  split at h
  · cases h
  · rename_i st0 hc
    obtain ⟨h1, h2, h3, -⟩ :=
      header_checked_facts cfg sdk env running update_partition st st0 r hc
    by_cases hw : r.write_err = ESP_OK
    · simp only [hw, ne_eq, not_true_eq_false, if_false] at h
      cases h
      refine ⟨?_, ?_, ?_⟩
      · simp [h1, reads_made]
      · simp [h2, written, Round.received]
      · simp [h3]
    · simp only [hw, ne_eq, not_false_eq_true, if_true] at h
      cases h

theorem ssl_server_check_facts (cfg : Config) (st st1 : LoopState) (r : Round)
    (h : ssl_server_check cfg st r = .next st1 ∨ ssl_server_check cfg st r = .leave st1) :
    reads_made st1.dev.calls = reads_made st.dev.calls ∧
    written st1.dev.calls = written st.dev.calls ∧
    st1.binary_file_length = st.binary_file_length := by
  unfold ssl_server_check at h
  split at h
  · rcases h with h | h
    · cases h
    · cases h
      simp [reads_made, written]
  · rcases h with h | h
    · cases h
      exact ⟨rfl, rfl, rfl⟩
    · cases h

/-- One iteration that does not end the attempt consumes one round: one more read, the bytes
of the round written, and their number added to `binary_file_length`. -/
theorem iteration_advances (cfg : Config) (sdk : Sdk) (env : Env)
    (running update_partition : esp_partition_t) (st st1 : LoopState) (r : Round)
    (hlen : int32 st.binary_file_length = st.binary_file_length)
    (h : iteration cfg sdk env running update_partition st r = .next st1 ∨
      iteration cfg sdk env running update_partition st r = .leave st1) :
    reads_made st1.dev.calls = reads_made st.dev.calls + 1 ∧
    written st1.dev.calls = written st.dev.calls ++ r.received ∧
    st1.binary_file_length = int32 (st.binary_file_length + r.data_read) ∧
    0 ≤ r.data_read := by
  unfold iteration at h
  simp only at h
  by_cases hneg : r.data_read < 0
  · simp [hneg] at h
  · by_cases hpos : r.data_read > 0
    · simp only [hneg, hpos, if_true, if_false] at h
      cases hod : on_data cfg sdk env running update_partition
          { st with dev := st.dev.call (.esp_http_client_read BUFFSIZE) } r with
      | error d => simp [hod] at h
      | ok st2 =>
        simp only [hod] at h
        obtain ⟨a1, a2, a3⟩ := on_data_ok cfg sdk env running update_partition _ st2 r hod
        obtain ⟨b1, b2, b3⟩ := ssl_server_check_facts cfg st2 st1 r h
        refine ⟨?_, ?_, ?_, by omega⟩
        · rw [b1, a1]; simp [reads_made]
        · rw [b2, a2]; simp [written]
        · rw [b3, a3]
    · have hz : r.data_read = 0 := by omega
      have hrec : r.received = [] := by simp [Round.received, hz]
      simp only [hneg, hpos, if_false] at h
      by_cases he : r.errno = sdk.ECONNRESET ∨ r.errno = sdk.ENOTCONN
      · simp only [he, if_true] at h
        rcases h with h | h
        · cases h
        · cases h
          simp [reads_made, written, hrec, hz, hlen]
      · simp only [he, if_false] at h
        by_cases hc : r.complete = true
        · simp only [hc, if_true] at h
          rcases h with h | h
          · cases h
          · cases h
            simp [reads_made, written, hrec, hz, hlen]
        · simp only [hc] at h
          obtain ⟨b1, b2, b3⟩ := ssl_server_check_facts cfg _ st1 r h
          refine ⟨?_, ?_, ?_, by omega⟩
          · rw [b1]; simp [reads_made]
          · rw [b2]; simp [written, hrec]
          · rw [b3]; simp [hz, hlen]

/-- Whenever the read loop is left by `break`, it has consumed the first `m` rounds, `m`
being the number of reads it made: these rounds were written in order and their sizes were
added up in `binary_file_length`. -/
theorem read_loop_exited (cfg : Config) (sdk : Sdk) (env : Env)
    (running update_partition : esp_partition_t) :
    ∀ (rounds : List Round) (st st' : LoopState),
      int32 st.binary_file_length = st.binary_file_length →
      read_loop cfg sdk env running update_partition st rounds = .exited st' →
      ∃ m, m ≤ rounds.length ∧
        reads_made st'.dev.calls = reads_made st.dev.calls + m ∧
        (∀ r ∈ rounds.take m, 0 ≤ r.data_read) ∧
        written st'.dev.calls = written st.dev.calls ++ received (rounds.take m) ∧
        st'.binary_file_length =
          int32 (st.binary_file_length + total_length (rounds.take m)) := by
  intro rounds
  induction rounds with
  | nil => intro st st' _ h; simp [read_loop] at h
  | cons r rs ih =>
    intro st st' hlen h
    unfold read_loop at h
    cases hit : iteration cfg sdk env running update_partition st r with
    | fatal d => simp [hit] at h
    | leave st1 =>
      simp only [hit] at h
      obtain ⟨a1, a2, a3, a4⟩ :=
        iteration_advances cfg sdk env running update_partition st st1 r hlen (Or.inr hit)
      cases h
      refine ⟨1, by simp, a1, ?_, ?_, ?_⟩
      · intro x hx
        simp at hx
        rw [hx]; exact a4
      · simp [a2, received]
      · simp [a3, total_length]
    | next st1 =>
      simp only [hit] at h
      obtain ⟨a1, a2, a3, a4⟩ :=
        iteration_advances cfg sdk env running update_partition st st1 r hlen (Or.inl hit)
      obtain ⟨m, hm, b1, b2, b3, b4⟩ := ih st1 st' (by rw [a3, int32_idem]) h
      refine ⟨m + 1, by simp; omega, by rw [b1, a1]; omega, ?_, ?_, ?_⟩
      · intro x hx
        simp only [List.take_succ_cons, List.mem_cons] at hx
        rcases hx with hx | hx
        · rw [hx]; exact a4
        · exact b2 x hx
      · simp [b3, a2, received]
      · rw [b4, a3]
        simp only [List.take_succ_cons, total_length, int32_add_int32, Int.add_assoc]

/-- A round that ends the loop: a read shorter than `BUFFSIZE` in the build with
`SSL_SERVER`, or a read of 0 bytes after a closed connection or complete data. -/
theorem iteration_last_leaves (cfg : Config) (sdk : Sdk) (env : Env)
    (running update_partition : esp_partition_t) (st : LoopState) (last : Round)
    (hlast : 0 ≤ last.data_read ∧ last.write_err = ESP_OK)
    (hends : (cfg.SSL_SERVER = true ∧ last.data_read < (BUFFSIZE : Int)) ∨
      (last.data_read = 0 ∧
        (last.errno = sdk.ECONNRESET ∨ last.errno = sdk.ENOTCONN ∨ last.complete = true)))
    (hhead : st.image_header_was_checked = true ∨
      (st.image_header_was_checked = false ∧ env.ota_begin_err = ESP_OK ∧
        (0 < last.data_read → last.data_read > (HEADER_MIN_BYTES sdk : Int) ∧
          ¬ same_as_invalid_version cfg sdk env last.bytes))) :
    ∃ st1, iteration cfg sdk env running update_partition st last = .leave st1 := by
  obtain ⟨h0, hw⟩ := hlast
  by_cases hpos : last.data_read > 0
  · have hshort : cfg.SSL_SERVER = true ∧ last.data_read < (BUFFSIZE : Int) := by
      rcases hends with h | h
      · exact h
      · omega
    rcases hhead with hflag | ⟨hflag, hbegin, hfirst⟩
    · rw [iteration_checked cfg sdk env running update_partition st last hflag hpos hw]
      simp [ssl_server_check, hshort.1, hshort.2, h0]
    · obtain ⟨hsize, hgate⟩ := hfirst hpos
      rw [iteration_first cfg sdk env running update_partition st last hflag hsize hgate
        hbegin hw]
      simp [ssl_server_check, hshort.1, hshort.2, h0]
  · have hz : last.data_read = 0 := by omega
    have hn : ¬ last.data_read < 0 := by omega
    by_cases he : last.errno = sdk.ECONNRESET ∨ last.errno = sdk.ENOTCONN
    · exact ⟨_, by simp only [iteration, hn, hpos, he, if_true, if_false]; rfl⟩
    · by_cases hc : last.complete = true
      · exact ⟨_, by simp only [iteration, hn, hpos, he, hc, if_true, if_false]; rfl⟩
      · have hssl : cfg.SSL_SERVER = true := by
          rcases hends with h | h
          · exact h.1
          · rcases h.2 with h | h | h
            · exact absurd (Or.inl h) he
            · exact absurd (Or.inr h) he
            · exact absurd h hc
        have hb : last.data_read < (BUFFSIZE : Int) := by rw [hz, BUFFSIZE_cast]; omega
        refine ⟨{ st with dev := (Device.log (st.dev.call (.esp_http_client_read BUFFSIZE))
          .connection_closed_all_data_received) }, ?_⟩
        simp only [iteration, hn, hpos, he, hc, ssl_server_check, hssl, hb, h0]
        simp

/-- A round with data that does not end the loop: any chunk without `SSL_SERVER`, a chunk
that is not shorter than `BUFFSIZE` with it. -/
theorem iteration_chunk_continues (cfg : Config) (sdk : Sdk) (env : Env)
    (running update_partition : esp_partition_t) (st : LoopState) (r : Round)
    (hpos : 1 ≤ r.data_read) (hw : r.write_err = ESP_OK)
    (hcont : cfg.SSL_SERVER = true → ¬ r.data_read < (BUFFSIZE : Int))
    (hhead : st.image_header_was_checked = true ∨
      (st.image_header_was_checked = false ∧ env.ota_begin_err = ESP_OK ∧
        r.data_read > (HEADER_MIN_BYTES sdk : Int) ∧
        ¬ same_as_invalid_version cfg sdk env r.bytes)) :
    ∃ st1, iteration cfg sdk env running update_partition st r = .next st1 ∧
      st1.image_header_was_checked = true := by
  have hnot : ¬ (cfg.SSL_SERVER = true ∧ r.data_read ≥ 0 ∧ r.data_read < (BUFFSIZE : Int)) :=
    fun h => hcont h.1 h.2.2
  rcases hhead with hflag | ⟨hflag, hbegin, hsize, hgate⟩
  · refine ⟨wrote { st with dev := st.dev.call (.esp_http_client_read BUFFSIZE) } r, ?_, ?_⟩
    · rw [iteration_checked cfg sdk env running update_partition st r hflag (by omega) hw]
      simp only [ssl_server_check, hnot, if_false]
    · simp [wrote, hflag]
  · refine ⟨wrote (opened cfg sdk env running update_partition st r) r, ?_, ?_⟩
    · rw [iteration_first cfg sdk env running update_partition st r hflag hsize hgate hbegin
        hw]
      simp only [ssl_server_check, hnot, if_false]
    · simp [wrote, (opened_facts cfg sdk env running update_partition st r).1]

/-- For chunks that do not end the loop followed by a round that does, the loop is left by
`break` after exactly one read per round. -/
theorem read_loop_exits (cfg : Config) (sdk : Sdk) (env : Env)
    (running update_partition : esp_partition_t) (last : Round) (rest : List Round)
    (hlast : 0 ≤ last.data_read ∧ last.write_err = ESP_OK)
    (hends : (cfg.SSL_SERVER = true ∧ last.data_read < (BUFFSIZE : Int)) ∨
      (last.data_read = 0 ∧
        (last.errno = sdk.ECONNRESET ∨ last.errno = sdk.ENOTCONN ∨ last.complete = true))) :
    ∀ (cs : List Round) (st : LoopState),
      int32 st.binary_file_length = st.binary_file_length →
      (st.image_header_was_checked = true ∨
        (st.image_header_was_checked = false ∧ env.ota_begin_err = ESP_OK ∧
          ∀ r, (cs ++ [last]).head? = some r → 0 < r.data_read →
            r.data_read > (HEADER_MIN_BYTES sdk : Int) ∧
            ¬ same_as_invalid_version cfg sdk env r.bytes)) →
      (∀ r ∈ cs, 1 ≤ r.data_read ∧ r.write_err = ESP_OK ∧
        (cfg.SSL_SERVER = true → ¬ r.data_read < (BUFFSIZE : Int))) →
      ∃ st', read_loop cfg sdk env running update_partition st (cs ++ last :: rest) =
          .exited st' ∧
        reads_made st'.dev.calls = reads_made st.dev.calls + (cs.length + 1) := by
  intro cs
  induction cs with
  | nil =>
    intro st hlen hhead _
    obtain ⟨st1, hit⟩ := iteration_last_leaves cfg sdk env running update_partition st last
      hlast hends (hhead.imp id (fun h => ⟨h.1, h.2.1, h.2.2 last rfl⟩))
    refine ⟨st1, by simp [read_loop, hit], ?_⟩
    simpa using
      (iteration_advances cfg sdk env running update_partition st st1 last hlen (Or.inr hit)).1
  | cons f fs ih =>
    intro st hlen hhead hchunks
    obtain ⟨hpos, hw, hcont⟩ := hchunks f (List.mem_cons_self _ _)
    obtain ⟨st1, hit, hflag1⟩ := iteration_chunk_continues cfg sdk env running
      update_partition st f hpos hw hcont
      (hhead.imp id (fun h => ⟨h.1, h.2.1, h.2.2 f rfl (by omega)⟩))
    obtain ⟨a1, -, a3, -⟩ :=
      iteration_advances cfg sdk env running update_partition st st1 f hlen (Or.inl hit)
    obtain ⟨st', hloop, hreads⟩ := ih st1 (by rw [a3, int32_idem]) (Or.inl hflag1)
      (fun r hr => hchunks r (List.mem_cons_of_mem _ hr))
    refine ⟨st', ?_, ?_⟩
    · simp only [List.cons_append, read_loop, hit]
      exact hloop
    · rw [hreads, a1]
      simp only [List.length_cons]
      omega

/-- The wait loop of `app_main` ends with the flag seen set, and without any slot call, when
the flag is set at one of the polls that are left. -/
theorem wait_for_AP_connected (env : BootEnv) (k : Nat) (hk : k ≤ AP_MAX_POLLS)
    (hflag : env.AP_connected k = true) :
    ∀ (fuel AP_polls : Nat) (d : Device), AP_polls ≤ k → AP_MAX_POLLS + 1 ≤ AP_polls + fuel →
      ∃ d', wait_for_AP env fuel AP_polls d = .connected d' ∧ d'.boot = d.boot ∧
        d'.running_state = d.running_state ∧ slot_calls d'.calls = slot_calls d.calls := by
  intro fuel
  induction fuel with
  | zero => intro AP_polls d h1 h2; omega
  | succ fuel ih =>
    intro AP_polls d h1 h2
    by_cases hf : env.AP_connected AP_polls = true
    · exact ⟨d, by simp [wait_for_AP, hf], rfl, rfl, rfl⟩
    · have hne : AP_polls ≠ k := fun h => hf (h ▸ hflag)
      have hlt : AP_polls + 1 ≤ k := by omega
      have hmax : AP_MAX_POLLS = 30 := rfl
      have hmod : (AP_polls + 1) % 4294967296 = AP_polls + 1 := by omega
      have hle : ¬ AP_polls + 1 > AP_MAX_POLLS := by omega
      obtain ⟨d', hw, hb, hs, hc⟩ := ih (AP_polls + 1)
        ((d.log (.waiting_for_pc AP_polls)).call (.vTaskDelay 1000)) hlt (by omega)
      refine ⟨d', ?_, ?_, ?_, ?_⟩
      · simp only [wait_for_AP, Bool.not_eq_true] at hf ⊢
        simp only [hf, hmod, hle, if_true, if_false]
        exact hw
      · simpa using hb
      · simpa using hs
      · rw [hc]
        simp [slot_calls_cons, Call.is_slot_call]

/-- The wait loop of `app_main` always ends within the iterations that `app_main` unfolds:
it finds the flag set or restarts the device. -/
theorem wait_for_AP_ends (env : BootEnv) :
    ∀ (fuel AP_polls : Nat) (d : Device), AP_polls ≤ AP_MAX_POLLS →
      AP_MAX_POLLS + 1 ≤ AP_polls + fuel →
      ∀ d', wait_for_AP env fuel AP_polls d ≠ .starved d' := by
  intro fuel
  induction fuel with
  | zero => intro AP_polls d h1 h2; omega
  | succ fuel ih =>
    intro AP_polls d h1 h2 d'
    have hmax : AP_MAX_POLLS = 30 := rfl
    have hmod : (AP_polls + 1) % 4294967296 = AP_polls + 1 := by omega
    by_cases hf : env.AP_connected AP_polls = true
    · simp [wait_for_AP, hf]
    · simp only [Bool.not_eq_true] at hf
      by_cases hle : AP_polls + 1 > AP_MAX_POLLS
      · simp [wait_for_AP, hf, hmod, hle]
      · simp only [wait_for_AP, hf, hmod, hle, if_true, if_false]
        exact ih (AP_polls + 1) _ (by omega) (by omega) d'

/-! ## C1: a version equal to the last invalid one is refused -/

/-- C1. In a build without `SKIP_VERSION_CHECK`, when the first chunk passes the size check
of the header, a last invalid slot exists, its description is readable and its version field
equals the version field of the incoming chunk, `ota_task` ends in a restart through
`task_fatal_error`: the only slot calls it makes are the `esp_ota_set_boot_partition` of
`reset_to_last_valid_app` and `esp_restart`, so `esp_ota_begin` and `esp_ota_write` are never
called and no byte is written. -/
theorem ota_task_refuses_last_invalid_version (cfg : Config) (sdk : Sdk) (env : Env)
    (d : Device) (update_partition p : esp_partition_t) (v : List Byte) (r : Round)
    (rs : List Round)
    (hskip : cfg.SKIP_VERSION_CHECK = false)
    (hinit : env.client_init_ok = true) (hopen : env.client_open_err = ESP_OK)
    (hup : env.next_update_partition = some update_partition)
    (hrounds : env.rounds = r :: rs)
    (hsize : r.data_read > (HEADER_MIN_BYTES sdk : Int))
    (hinv : env.last_invalid_partition = some p)
    (hdesc : env.partition_version p = some v)
    (hsame : v.take sdk.sizeof_version = new_app_info_version sdk r.bytes) :
    ∃ d1 d2, ota_task cfg sdk env d = .restarted d2 ∧
      d2 = task_fatal_error env (http_cleanup d1) ∧
      slot_calls d2.calls = slot_calls d.calls ++
        [.esp_ota_set_boot_partition (some p), .esp_restart] ∧
      written d2.calls = written d.calls := by
  have hpos : ¬ r.data_read < 0 := by have := Int.ofNat_nonneg (HEADER_MIN_BYTES sdk); omega
  have hpos2 : r.data_read > 0 := by have := Int.ofNat_nonneg (HEADER_MIN_BYTES sdk); omega
  have hver : invalid_app_info_version env = v := by
    simp [invalid_app_info_version, hinv, hdesc]
  have hgate : same_as_invalid_version cfg sdk env r.bytes := by
    refine ⟨hskip, by simp [hinv], ?_⟩
    have h2 : (new_app_info_version sdk r.bytes).take sdk.sizeof_version =
        new_app_info_version sdk r.bytes := by
      simp [new_app_info_version, List.take_take]
    simp [memcmp, hver, hsame, h2]
  obtain ⟨pre, hp, hp1, hp3⟩ := entry_device_calls d
  obtain ⟨logs, hl, hl1, hl3⟩ := refused_device_calls sdk env d.running
    ((entry_device d).call (.esp_http_client_read BUFFSIZE)) r.bytes
  refine ⟨refused_device sdk env d.running
    ((entry_device d).call (.esp_http_client_read BUFFSIZE)) r.bytes, _, ?_, rfl, ?_, ?_⟩
  · rw [ota_task_connected cfg sdk env d update_partition hinit hopen hup, hrounds]
    simp [read_loop, iteration, on_data, loop_entry, hpos, hpos2, refused_exit,
      check_image_header_refused cfg sdk env _ _ _ r hsize hgate]
  · simp [hinv, hl, hl1, hp, hp1, slot_calls_cons, Call.is_slot_call]
  · simp [hl, hl3, hp, hp3, written]

/-- Witness of C1: the build that checks versions, the last invalid slot `ota_2` holding the
version of 32 zero bytes, and a first chunk of 512 zero bytes. -/
theorem ota_task_refuses_last_invalid_version_witness :
    ∃ d1 d2, ota_task checking_config esp_idf (env_invalid_ota_2 [chunk 512 0]) dev0 =
        .restarted d2 ∧
      d2 = task_fatal_error (env_invalid_ota_2 [chunk 512 0]) (http_cleanup d1) ∧
      slot_calls d2.calls = slot_calls dev0.calls ++
        [.esp_ota_set_boot_partition (some ota_2), .esp_restart] ∧
      written d2.calls = written dev0.calls :=
  ota_task_refuses_last_invalid_version checking_config esp_idf
    (env_invalid_ota_2 [chunk 512 0]) dev0 ota_1 ota_2 (List.replicate 32 0) (chunk 512 0) []
    rfl rfl rfl rfl rfl (by decide) rfl (by decide) (by decide)

/-! ## C6: the threshold of the header check -/

/-- C6, as the code has it. The header block of `ota_task` takes the path of the malformed
stream (`received package is not fit len`, abort, `task_fatal_error`) exactly when the first
chunk has at most `HEADER_MIN_BYTES` bytes; with more than `HEADER_MIN_BYTES` bytes the version
is read and the gate decides: a version equal to the last invalid one is refused, and
otherwise `esp_ota_begin` is called and, when it succeeds, the header-checked flag is set. -/
theorem header_threshold_is_strict (cfg : Config) (sdk : Sdk) (env : Env)
    (running update_partition : esp_partition_t) (st : LoopState) (r : Round) :
    (check_image_header cfg sdk env running update_partition st r =
        .error (malformed_exit env st) ↔ r.data_read ≤ (HEADER_MIN_BYTES sdk : Int)) ∧
    (r.data_read > (HEADER_MIN_BYTES sdk : Int) →
      check_image_header cfg sdk env running update_partition st r =
        if same_as_invalid_version cfg sdk env r.bytes
        then .error (refused_exit sdk env running st r)
        else if env.ota_begin_err ≠ ESP_OK
        then .error (begin_failed_exit cfg sdk env running update_partition st r)
        else .ok (header_parsed cfg sdk env running update_partition st r)) := by
  refine ⟨⟨fun h => ?_, check_image_header_small cfg sdk env running update_partition st r⟩,
    fun hsize => ?_⟩
  · by_contra hn
    exact check_image_header_parsed_ne cfg sdk env running update_partition st r
      (by omega) h
  · by_cases hgate : same_as_invalid_version cfg sdk env r.bytes
    · rw [check_image_header_refused cfg sdk env running update_partition st r hsize hgate]
      simp [hgate]
    · rw [check_image_header_passed cfg sdk env running update_partition st r hsize hgate]
      simp [hgate]

/-- Witness of C6: a first chunk of 289 bytes is parsed and the slot is opened. -/
theorem header_threshold_is_strict_witness :
    check_image_header source_config esp_idf (env_ok []) ota_0 ota_1 (loop_entry dev0)
        (chunk 289 0) =
      .ok (header_parsed source_config esp_idf (env_ok []) ota_0 ota_1 (loop_entry dev0)
        (chunk 289 0)) :=
  ((header_threshold_is_strict source_config esp_idf (env_ok []) ota_0 ota_1 (loop_entry dev0)
    (chunk 289 0)).2 (by decide)).trans rfl

/-- Counterexample to C6 as stated: with the sizes of ESP-IDF `HEADER_MIN_BYTES` is 288, and a
first chunk of exactly 288 bytes is not accepted: `ota_task` logs
`received package is not fit len`, never calls `esp_ota_begin` and restarts. -/
theorem first_chunk_of_header_min_bytes_is_refused :
    HEADER_MIN_BYTES esp_idf = 288 ∧
    (chunk 288 0).data_read = 288 ∧
    ∃ d, ota_task source_config esp_idf (env_ok [chunk 288 0]) dev0 = .restarted d ∧
      Call.log .package_not_fit_len ∈ d.calls ∧
      slot_calls d.calls =
        [.esp_ota_abort 0, .esp_ota_set_boot_partition none, .esp_restart] :=
  ⟨rfl, rfl, _, rfl, by decide, by decide⟩

/-! ## C5: the length counted by the read loop -/

/-- C5. The chunks the transport delivers are the results of the reads the loop makes. In
both builds and for chunks of any size:

* whenever the read loop is left by `break`, after `m` reads, the bytes handed to
  `esp_ota_write` are the bytes of these `m` rounds in order, and `binary_file_length` is
  the sum `L` of their sizes as an `int`, `L` itself when `L < 2^31`;
* for chunks of 1 to `BUFFSIZE` bytes (full ones where the build with `SSL_SERVER` would
  stop at a shorter one), followed by a round that ends the loop (a shorter read with
  `SSL_SERVER`, or a read of 0 bytes after complete data or a closed connection), with the
  header of the first chunk parsed and approved and every storage call succeeding, the loop
  is left after exactly these reads, and `binary_file_length` is the sum of all of them. -/
theorem binary_file_length_is_length_delivered (cfg : Config) (sdk : Sdk) (env : Env)
    (running update_partition : esp_partition_t) (d : Device) :
    (∀ (rounds : List Round) (st : LoopState),
      read_loop cfg sdk env running update_partition (loop_entry d) rounds = .exited st →
      ∃ m, m ≤ rounds.length ∧
        reads_made st.dev.calls = reads_made d.calls + m ∧
        (∀ r ∈ rounds.take m, 0 ≤ r.data_read) ∧
        written st.dev.calls = written d.calls ++ received (rounds.take m) ∧
        st.binary_file_length = int32 (total_length (rounds.take m)) ∧
        (total_length (rounds.take m) < 2147483648 →
          st.binary_file_length = total_length (rounds.take m))) ∧
    (∀ (cs : List Round) (last : Round) (rest : List Round),
      (∀ r ∈ cs, 1 ≤ r.data_read ∧ r.data_read ≤ (BUFFSIZE : Int) ∧ r.write_err = ESP_OK ∧
        (cfg.SSL_SERVER = true → r.data_read = (BUFFSIZE : Int))) →
      (0 ≤ last.data_read ∧ last.data_read ≤ (BUFFSIZE : Int) ∧ last.write_err = ESP_OK) →
      ((cfg.SSL_SERVER = true ∧ last.data_read < (BUFFSIZE : Int)) ∨
        (last.data_read = 0 ∧
          (last.errno = sdk.ECONNRESET ∨ last.errno = sdk.ENOTCONN ∨ last.complete = true))) →
      (∀ r, (cs ++ [last]).head? = some r → 0 < r.data_read →
        r.data_read > (HEADER_MIN_BYTES sdk : Int) ∧
        ¬ same_as_invalid_version cfg sdk env r.bytes) →
      env.ota_begin_err = ESP_OK →
      ∃ st, read_loop cfg sdk env running update_partition (loop_entry d)
          (cs ++ last :: rest) = .exited st ∧
        reads_made st.dev.calls = reads_made d.calls + (cs.length + 1) ∧
        written st.dev.calls = written d.calls ++ received (cs ++ [last]) ∧
        st.binary_file_length = int32 (total_length (cs ++ [last])) ∧
        (total_length (cs ++ [last]) < 2147483648 →
          st.binary_file_length = total_length (cs ++ [last]))) := by
  have hentry : int32 (loop_entry d).binary_file_length = (loop_entry d).binary_file_length :=
    rfl
  constructor
  · intro rounds st hloop
    obtain ⟨m, hm, b1, b2, b3, b4⟩ :=
      read_loop_exited cfg sdk env running update_partition rounds (loop_entry d) st hentry
        hloop
    have b4' : st.binary_file_length = int32 (total_length (rounds.take m)) := by
      rw [b4]; simp [loop_entry]
    refine ⟨m, hm, b1, b2, b3, b4', fun hlt => ?_⟩
    rw [b4', int32_of_range _ (by have := total_length_nonneg _ b2; omega) hlt]
  · intro cs last rest hchunks hlast hends hfirst hbegin
    obtain ⟨st, hloop, hreads⟩ :=
      read_loop_exits cfg sdk env running update_partition last rest ⟨hlast.1, hlast.2.2⟩
        hends cs (loop_entry d) hentry (Or.inr ⟨rfl, hbegin, hfirst⟩)
        (fun r hr => ⟨(hchunks r hr).1, (hchunks r hr).2.2.1,
          fun hssl => by rw [(hchunks r hr).2.2.2 hssl]; omega⟩)
    obtain ⟨m, -, b1, b2, b3, b4⟩ :=
      read_loop_exited cfg sdk env running update_partition (cs ++ last :: rest)
        (loop_entry d) st hentry hloop
    have hm : m = cs.length + 1 := by omega
    have htake : (cs ++ last :: rest).take m = cs ++ [last] := by
      rw [hm, List.take_append]
      simp
    rw [htake] at b2 b3 b4
    have b4' : st.binary_file_length = int32 (total_length (cs ++ [last])) := by
      rw [b4]; simp [loop_entry]
    refine ⟨st, hloop, hreads, b3, b4', fun hlt => ?_⟩
    rw [b4', int32_of_range _ (by have := total_length_nonneg _ b2; omega) hlt]

/-- Witness of C5. In the build of the source the chunks 1024, 1024, 512 give
`binary_file_length = 2560`; without `SSL_SERVER` the chunks 512, 512 and the end of the
data give 1024; and in the build of the source the rounds 512, 512 end the loop after the
reads it made, with the length of what these reads returned. -/
theorem binary_file_length_is_length_delivered_witness :
    (∃ st, read_loop source_config esp_idf (env_ok []) ota_0 ota_1 (loop_entry dev0)
        ([chunk 1024 0, chunk 1024 1] ++ chunk 512 2 :: []) = .exited st ∧
      st.binary_file_length = 2560) ∧
    (∃ st, read_loop plain_config esp_idf (env_ok []) ota_0 ota_1 (loop_entry dev0)
        ([chunk 512 0, chunk 512 1] ++ eof_round :: []) = .exited st ∧
      st.binary_file_length = 1024) ∧
    (∃ st m, read_loop source_config esp_idf (env_ok []) ota_0 ota_1 (loop_entry dev0)
        [chunk 512 0, chunk 512 1] = .exited st ∧
      reads_made st.dev.calls = reads_made dev0.calls + m ∧
      st.binary_file_length = int32 (total_length ([chunk 512 0, chunk 512 1].take m))) := by
  refine ⟨?_, ?_, ?_⟩
  · obtain ⟨st, h1, -, -, -, h5⟩ :=
      (binary_file_length_is_length_delivered source_config esp_idf (env_ok []) ota_0 ota_1
        dev0).2 [chunk 1024 0, chunk 1024 1] (chunk 512 2) [] (by decide) (by decide)
        (Or.inl (by decide)) (by intro r hr _; cases hr; decide) rfl
    exact ⟨st, h1, h5 (by decide)⟩
  · obtain ⟨st, h1, -, -, -, h5⟩ :=
      (binary_file_length_is_length_delivered plain_config esp_idf (env_ok []) ota_0 ota_1
        dev0).2 [chunk 512 0, chunk 512 1] eof_round [] (by decide) (by decide)
        (Or.inr (by decide)) (by intro r hr _; cases hr; decide) rfl
    exact ⟨st, h1, h5 (by decide)⟩
  · obtain ⟨m, -, h2, -, -, h5, -⟩ :=
      (binary_file_length_is_length_delivered source_config esp_idf (env_ok []) ota_0 ota_1
        dev0).1 [chunk 512 0, chunk 512 1] _ rfl
    exact ⟨_, m, rfl, h2, h5⟩

/-! ## C7: the successful update -/

/-- C7. In the build with `SSL_SERVER`, for a stream of `k ≥ 1` chunks of `BUFFSIZE` bytes
(`f :: fs`) followed by one read shorter than `BUFFSIZE`, when the version is not refused and
`esp_ota_begin`, every `esp_ota_write`, `esp_ota_end` and `esp_ota_set_boot_partition`
succeed, `ota_task` restarts the device with the boot pointer on the update slot, and its
slot calls are exactly: one `esp_ota_begin`, then one `esp_ota_write` per chunk with the
bytes of that chunk in arrival order, then `esp_ota_end`, `esp_ota_set_boot_partition` of
the update slot, and `esp_restart`; the bytes written are the bytes received. -/
theorem ota_task_successful_update (cfg : Config) (sdk : Sdk) (env : Env) (d : Device)
    (update_partition : esp_partition_t) (f : Round) (fs : List Round) (last : Round)
    (rest : List Round)
    (hssl : cfg.SSL_SERVER = true)
    (hinit : env.client_init_ok = true) (hopen : env.client_open_err = ESP_OK)
    (hup : env.next_update_partition = some update_partition)
    (hrounds : env.rounds = (f :: fs) ++ last :: rest)
    (hfull : ∀ r ∈ f :: fs, r.data_read = (BUFFSIZE : Int) ∧ r.write_err = ESP_OK)
    (hlast : 0 ≤ last.data_read ∧ last.data_read < (BUFFSIZE : Int) ∧ last.write_err = ESP_OK)
    (hhdr : HEADER_MIN_BYTES sdk < BUFFSIZE)
    (hgate : ¬ same_as_invalid_version cfg sdk env f.bytes)
    (hbegin : env.ota_begin_err = ESP_OK) (hend : env.ota_end_err = ESP_OK)
    (hset : env.set_boot_err (some update_partition) = ESP_OK) :
    ∃ d', ota_task cfg sdk env d = .restarted d' ∧
      d'.boot = update_partition ∧
      slot_calls d'.calls = slot_calls d.calls ++
        .esp_ota_begin update_partition ::
          (write_calls env.ota_handle (f :: fs ++ [last]) ++
            [.esp_ota_end env.ota_handle,
              .esp_ota_set_boot_partition (some update_partition), .esp_restart]) ∧
      written d'.calls = written d.calls ++ received (f :: fs ++ [last]) := by
  obtain ⟨pre, hp, hp1, hp3⟩ := entry_device_calls d
  obtain ⟨st, hloop, hh, -, hs, hw, -⟩ :=
    read_loop_stream cfg sdk env d.running update_partition hssl (loop_entry (entry_device d))
      rfl (f :: fs) last rest hfull hlast
      (by
        intro r hr
        simp only [List.cons_append, List.head?_cons, Option.some.injEq] at hr
        rw [← hr]
        refine ⟨?_, hgate⟩
        rw [(hfull f (List.mem_cons_self _ _)).1]
        exact_mod_cast hhdr) hbegin
  obtain ⟨hb, hfs, hfw⟩ := finish_update_success cfg sdk env update_partition st hssl hend hset
  refine ⟨finish_update cfg sdk env update_partition st, ?_, hb, ?_, ?_⟩
  · rw [ota_task_connected cfg sdk env d update_partition hinit hopen hup, hrounds, hloop]
  · rw [hfs, hs, hh]
    simp [loop_entry, hp, hp1]
  · rw [hfw, hw]
    simp [loop_entry, hp, hp3]

/-- Witness of C7: the chunks 1024, 1024, 512 give 2560 bytes written, the boot pointer on
`ota_1` and a restart. -/
theorem ota_task_successful_update_witness :
    ∃ d', ota_task source_config esp_idf
        (env_ok [chunk 1024 0, chunk 1024 1, chunk 512 2]) dev0 = .restarted d' ∧
      d'.boot = ota_1 ∧ (written d'.calls).length = 2560 := by
  obtain ⟨d', h1, h2, -, h4⟩ := ota_task_successful_update source_config esp_idf
    (env_ok [chunk 1024 0, chunk 1024 1, chunk 512 2]) dev0 ota_1 (chunk 1024 0)
    [chunk 1024 1] (chunk 512 2) [] rfl rfl rfl rfl rfl (by decide) (by decide) (by decide)
    (by decide) rfl rfl rfl
  refine ⟨d', h1, h2, ?_⟩
  rw [h4]
  simp only [dev0, received, Round.received, chunk, written_nil, List.nil_append,
    List.append_nil, List.length_append, List.length_take, List.length_replicate,
    Int.toNat_ofNat]
  decide

/-! ## C9: the build with `SKIP_VERSION_CHECK` -/

/-- C9. In a build with `SKIP_VERSION_CHECK`, whatever the running, last invalid and incoming
versions are (all of `env` and the bytes of the chunk are arbitrary), a first chunk that
passes the size check is approved: `esp_ota_begin` is called on the update slot, and when it
succeeds the header-checked flag is set. The calls made up to `esp_ota_begin`, log lines
left out, do not depend on any version. -/
theorem skip_version_check_approves (cfg : Config) (sdk : Sdk) (env : Env)
    (running update_partition : esp_partition_t) (st : LoopState) (r : Round)
    (hskip : cfg.SKIP_VERSION_CHECK = true)
    (hsize : r.data_read > (HEADER_MIN_BYTES sdk : Int)) :
    check_image_header cfg sdk env running update_partition st r =
      (if env.ota_begin_err ≠ ESP_OK
        then .error (begin_failed_exit cfg sdk env running update_partition st r)
        else .ok (header_parsed cfg sdk env running update_partition st r)) ∧
    (header_parsed cfg sdk env running update_partition st r).image_header_was_checked = true ∧
    effects (begin_device cfg sdk env running update_partition st.dev r.bytes).calls =
      effects st.dev.calls ++ [.esp_ota_begin update_partition] ∧
    effects (header_parsed cfg sdk env running update_partition st r).dev.calls =
      effects st.dev.calls ++ [.esp_ota_begin update_partition] := by
  have hgate : ¬ same_as_invalid_version cfg sdk env r.bytes := by
    intro h
    have := h.1
    simp [hskip] at this
  obtain ⟨logs, hl, -, hl2, -⟩ :=
    begin_device_calls cfg sdk env running update_partition st.dev r.bytes
  refine ⟨check_image_header_passed cfg sdk env running update_partition st r hsize hgate,
    rfl, ?_, ?_⟩
  · simp [hl, hl2, effects_cons, Call.is_log]
  · simp [header_parsed, hl, hl2, effects_cons, Call.is_log]

/-- Witness of C9: in the build of the source, an incoming version equal to the version of
the last invalid slot `ota_2` is approved. -/
theorem skip_version_check_approves_witness :
    same_as_invalid_version checking_config esp_idf (env_invalid_ota_2 []) (chunk 512 0).bytes ∧
    check_image_header source_config esp_idf (env_invalid_ota_2 []) ota_0 ota_1
        (loop_entry dev0) (chunk 512 0) =
      .ok (header_parsed source_config esp_idf (env_invalid_ota_2 []) ota_0 ota_1
        (loop_entry dev0) (chunk 512 0)) :=
  ⟨by decide, (skip_version_check_approves source_config esp_idf (env_invalid_ota_2 []) ota_0
    ota_1 (loop_entry dev0) (chunk 512 0) rfl (by decide)).1.trans rfl⟩

/-! ## C4: a read of 0 bytes after a reset of the connection -/

/-- C4, as the code has it. A read of 0 bytes with `errno` equal to `ECONNRESET` or
`ENOTCONN` ends the read loop at once, by `break`, without any slot call and with the boot
pointer untouched. What follows depends on the build.

* With `SSL_SERVER`, `esp_ota_end` is called on the session. When it fails, `ota_task` runs
  `http_cleanup` and `task_fatal_error`, having made no other slot call. When it succeeds,
  `esp_ota_set_boot_partition` is called on the update slot: when that fails too,
  `ota_task` runs `http_cleanup` and `task_fatal_error`; when it succeeds the device
  restarts with the boot pointer on the update slot.
* Without `SSL_SERVER`, when the transport does not report the data complete, the session
  is aborted and `task_fatal_error` runs; `esp_ota_end` is not among the slot calls.

What `task_fatal_error` does to the boot pointer is not part of this statement. -/
theorem reset_closure_ends_loop (cfg : Config) (sdk : Sdk) (env : Env)
    (running update_partition : esp_partition_t) (st : LoopState) (r : Round)
    (rs : List Round) (hzero : r.data_read = 0)
    (herr : r.errno = sdk.ECONNRESET ∨ r.errno = sdk.ENOTCONN) :
    ∃ st', read_loop cfg sdk env running update_partition st (r :: rs) = .exited st' ∧
      st'.update_handle = st.update_handle ∧
      slot_calls st'.dev.calls = slot_calls st.dev.calls ∧
      st'.dev.boot = st.dev.boot ∧
      (cfg.SSL_SERVER = true → env.ota_end_err ≠ ESP_OK →
        ∃ d1, finish_update cfg sdk env update_partition st' =
            task_fatal_error env (http_cleanup d1) ∧
          d1.boot = st.dev.boot ∧
          slot_calls d1.calls = slot_calls st.dev.calls ++ [.esp_ota_end st.update_handle]) ∧
      (cfg.SSL_SERVER = true → env.ota_end_err = ESP_OK →
        env.set_boot_err (some update_partition) ≠ ESP_OK →
        ∃ d1, finish_update cfg sdk env update_partition st' =
            task_fatal_error env (http_cleanup d1) ∧
          d1.boot = st.dev.boot ∧
          slot_calls d1.calls = slot_calls st.dev.calls ++
            [.esp_ota_end st.update_handle,
              .esp_ota_set_boot_partition (some update_partition)]) ∧
      (cfg.SSL_SERVER = true → env.ota_end_err = ESP_OK →
        env.set_boot_err (some update_partition) = ESP_OK →
        (finish_update cfg sdk env update_partition st').boot = update_partition ∧
        slot_calls (finish_update cfg sdk env update_partition st').calls =
          slot_calls st.dev.calls ++ [.esp_ota_end st.update_handle,
            .esp_ota_set_boot_partition (some update_partition), .esp_restart]) ∧
      (cfg.SSL_SERVER = false → env.complete_at_exit = false →
        (∃ d1, finish_update cfg sdk env update_partition st' = task_fatal_error env d1 ∧
          d1.boot = st.dev.boot ∧
          slot_calls d1.calls = slot_calls st.dev.calls ++ [.esp_ota_abort st.update_handle]) ∧
        slot_calls (finish_update cfg sdk env update_partition st').calls =
          slot_calls st.dev.calls ++ [.esp_ota_abort st.update_handle,
            .esp_ota_set_boot_partition env.last_invalid_partition, .esp_restart]) := by
  have hn : ¬ r.data_read < 0 := by omega
  have hp : ¬ r.data_read > 0 := by omega
  refine ⟨{ st with dev := (Device.log (st.dev.call (.esp_http_client_read BUFFSIZE))
      (.connection_closed_errno r.errno)) }, ?_, rfl, ?_, ?_, ?_, ?_, ?_, ?_⟩
  · simp only [read_loop, iteration, hn, hp, herr, if_true, if_false]
  · simp [slot_calls_cons, Call.is_slot_call]
  · simp
  · intro hssl hend
    by_cases hv : env.ota_end_err = sdk.ESP_ERR_OTA_VALIDATE_FAILED
    · refine ⟨Device.log (Device.call (Device.log (st.dev.call
        (.esp_http_client_read BUFFSIZE)) (.connection_closed_errno r.errno))
        (.esp_ota_end st.update_handle)) .image_validation_failed, ?_, ?_, ?_⟩
      · have hend' : sdk.ESP_ERR_OTA_VALIDATE_FAILED ≠ ESP_OK := hv ▸ hend
        simp [finish_update, hssl, hv, hend']
      · simp
      · simp [slot_calls_cons, Call.is_slot_call]
    · refine ⟨Device.log (Device.call (Device.log (st.dev.call
        (.esp_http_client_read BUFFSIZE)) (.connection_closed_errno r.errno))
        (.esp_ota_end st.update_handle)) .esp_ota_end_failed, ?_, ?_, ?_⟩
      · simp [finish_update, hssl, hend, hv]
      · simp
      · simp [slot_calls_cons, Call.is_slot_call]
  · intro hssl hend hset
    refine ⟨Device.log (Device.call (Device.call (Device.log (st.dev.call
      (.esp_http_client_read BUFFSIZE)) (.connection_closed_errno r.errno))
      (.esp_ota_end st.update_handle))
      (.esp_ota_set_boot_partition (some update_partition))) .set_boot_partition_failed,
      ?_, ?_, ?_⟩
    · simp [finish_update, hssl, hend, hset, esp_ota_set_boot_partition]
    · simp
    · simp [slot_calls_cons, Call.is_slot_call]
  · intro hssl hend hset
    simp [finish_update, hssl, hend, hset, esp_ota_set_boot_partition, slot_calls_cons,
      Call.is_slot_call]
  · intro hssl hc
    refine ⟨⟨Device.call (http_cleanup (Device.log (Device.log (Device.log (st.dev.call
      (.esp_http_client_read BUFFSIZE)) (.connection_closed_errno r.errno))
      (.total_write_length st.binary_file_length)) .error_receiving_complete_file))
      (.esp_ota_abort st.update_handle), ?_, ?_, ?_⟩, ?_⟩
    · simp [finish_update, hssl, hc]
    · simp [http_cleanup]
    · simp [slot_calls_cons, Call.is_slot_call]
    · simp [finish_update, hssl, hc, slot_calls_cons, Call.is_slot_call]

/-- Witness of C4, as the code has it: in the build of the source, after one full chunk, a
read of 0 bytes with `ECONNRESET` is followed by `esp_ota_end` and, as every call succeeds,
by a restart with the boot pointer on the update slot `ota_1`. -/
theorem reset_closure_ends_loop_witness :
    ∃ st', read_loop source_config esp_idf (env_ok []) ota_0 ota_1
        (wrote (opened source_config esp_idf (env_ok []) ota_0 ota_1 (loop_entry dev0)
          (chunk 1024 0)) (chunk 1024 0)) (reset_round :: []) = .exited st' ∧
      (finish_update source_config esp_idf (env_ok []) ota_1 st').boot = ota_1 ∧
      slot_calls (finish_update source_config esp_idf (env_ok []) ota_1 st').calls =
        slot_calls (wrote (opened source_config esp_idf (env_ok []) ota_0 ota_1
          (loop_entry dev0) (chunk 1024 0)) (chunk 1024 0)).dev.calls ++
          [.esp_ota_end 1, .esp_ota_set_boot_partition (some ota_1), .esp_restart] := by
  obtain ⟨st', h1, -, -, -, -, -, h4, -⟩ := reset_closure_ends_loop source_config esp_idf
    (env_ok []) ota_0 ota_1 (wrote (opened source_config esp_idf (env_ok []) ota_0 ota_1
      (loop_entry dev0) (chunk 1024 0)) (chunk 1024 0)) reset_round [] rfl (Or.inl rfl)
  exact ⟨st', h1, (h4 rfl rfl rfl).1, (h4 rfl rfl rfl).2⟩

/-- Counterexample to C4 as stated: in the build of the source, one full chunk followed by a
read of 0 bytes with `errno = ECONNRESET`. The session is not aborted: `esp_ota_end` is
called, the boot target is set to the update slot `ota_1`, and the device restarts on it. -/
theorem reset_closure_is_finalized :
    reset_round.data_read = 0 ∧ reset_round.errno = esp_idf.ECONNRESET ∧
    ∃ d, ota_task source_config esp_idf (env_ok [chunk 1024 0, reset_round]) dev0 =
        .restarted d ∧
      d.boot = ota_1 ∧
      slot_calls d.calls =
        [.esp_ota_begin ota_1, .esp_ota_write 1 (chunk 1024 0).received, .esp_ota_end 1,
          .esp_ota_set_boot_partition (some ota_1), .esp_restart] :=
  ⟨rfl, rfl, _, rfl, rfl, rfl⟩

/-! ## C8: the health checkpoint, success path -/

/-- C8. When the startup checks pass, the running slot is `PendingVerify` and its state can
be read, the flag `AP_connected` is seen set at one of the `AP_MAX_POLLS` polls, and marking
valid succeeds, `app_main` makes exactly two slot calls, the call of
`esp_ota_mark_app_valid_cancel_rollback` and then the creation of the update task: the
running slot is `Valid`, the boot pointer is untouched, there is no
`esp_ota_set_boot_partition`, no `esp_ota_mark_app_invalid_rollback_and_reboot` and no
restart before the task runs. -/
theorem health_checkpoint_success (cfg : Config) (sdk : Sdk) (env : BootEnv) (d : Device)
    (k : Nat)
    (hstart : startup_checks sdk env = true)
    (hstate : d.running_state = .ESP_OTA_IMG_PENDING_VERIFY)
    (hget : env.get_state_err = ESP_OK)
    (hk : 1 ≤ k ∧ k ≤ AP_MAX_POLLS) (hflag : env.AP_connected k = true)
    (hmark : env.mark_valid_err = ESP_OK) :
    ∃ d1, app_main cfg sdk env d = ota_task cfg sdk env.ota d1 ∧
      d1.running_state = .ESP_OTA_IMG_VALID ∧
      d1.boot = d.boot ∧
      slot_calls d1.calls = slot_calls d.calls ++
        [.esp_ota_mark_app_valid_cancel_rollback, .xTaskCreate_ota_task] := by
  obtain ⟨d', hw, hb, hs, hc⟩ := wait_for_AP_connected env k hk.2 hflag AP_MAX_POLLS 1
    ((((d.log .sha256_partition_table).log .sha256_bootloader).log
      .sha256_current_firmware).log .wifi_init_softap_finished) hk.1 (by omega)
  have hs' : d'.running_state = .ESP_OTA_IMG_PENDING_VERIFY := by rw [hs]; simpa using hstate
  refine ⟨Device.call (Device.log (esp_ota_mark_app_valid_cancel_rollback env d').2
    .rollback_cancelled) .xTaskCreate_ota_task, ?_, ?_, ?_, ?_⟩
  · simp [app_main, hstart, hw, hget, hs', esp_ota_mark_app_valid_cancel_rollback, hmark]
  · simp [esp_ota_mark_app_valid_cancel_rollback, hmark]
  · simpa [esp_ota_mark_app_valid_cancel_rollback, hmark] using hb
  · simp [esp_ota_mark_app_valid_cancel_rollback, hmark, hc, slot_calls_cons,
      Call.is_slot_call]

/-- Witness of C8: the flag is seen set at the third poll. -/
theorem health_checkpoint_success_witness :
    ∃ d1, app_main source_config esp_idf (boot_env (fun n => decide (3 ≤ n)) (env_ok []))
        dev_pending = ota_task source_config esp_idf (env_ok []) d1 ∧
      d1.running_state = .ESP_OTA_IMG_VALID ∧
      d1.boot = dev_pending.boot ∧
      slot_calls d1.calls = slot_calls dev_pending.calls ++
        [.esp_ota_mark_app_valid_cancel_rollback, .xTaskCreate_ota_task] :=
  health_checkpoint_success source_config esp_idf (boot_env (fun n => decide (3 ≤ n))
    (env_ok [])) dev_pending 3 rfl rfl rfl (by decide) rfl rfl

/-! ## C2: the boot pointer after a failed validation -/

/-- C2, the code at the failing input. The device runs and boots `ota_0`, the last invalid
slot is `ota_2`, the update goes to `ota_1`, and `esp_ota_end` fails with
`ESP_ERR_OTA_VALIDATE_FAILED`. On the way through `task_fatal_error`,
`reset_to_last_valid_app` passes the last invalid slot to `esp_ota_set_boot_partition`: the
device restarts with the boot pointer on `ota_2`, not on `ota_0`. -/
theorem validation_failure_boots_last_invalid :
    dev0.boot = ota_0 ∧ dev0.running = ota_0 ∧
    (env_validation_fails [chunk 512 0]).ota_end_err = esp_idf.ESP_ERR_OTA_VALIDATE_FAILED ∧
    ∃ d, ota_task source_config esp_idf (env_validation_fails [chunk 512 0]) dev0 =
        .restarted d ∧
      d.boot = ota_2 ∧ d.boot ≠ dev0.boot ∧
      slot_calls d.calls =
        [.esp_ota_begin ota_1, .esp_ota_write 1 (chunk 512 0).received, .esp_ota_end 1,
          .esp_ota_set_boot_partition (some ota_2), .esp_restart] :=
  ⟨rfl, rfl, rfl, _, rfl, rfl, by decide, rfl⟩

/-! ## C3: the health checkpoint, timeout path -/

/-- C3, the code at the failing input. The device runs the unconfirmed image of `ota_1`,
`ota_0` is the last known-good slot, and the flag `AP_connected` is never seen set. After
`AP_MAX_POLLS` polls `app_main` calls `reset_to_last_valid_app`, whose only slot calls are
`esp_ota_set_boot_partition` on the last invalid slot and `esp_restart`. The running slot is
still `PendingVerify` at the restart. When no slot is invalid the boot pointer stays on
`ota_1`; when `ota_2` is the last invalid slot the boot pointer moves to `ota_2`. In neither
case is it set to `ota_0`. -/
theorem checkpoint_timeout_does_not_roll_back :
    (∃ d, app_main source_config esp_idf (boot_env (fun _ => false) (env_ok [])) dev_pending =
        .restarted d ∧
      d.running_state = .ESP_OTA_IMG_PENDING_VERIFY ∧ d.boot = ota_1 ∧
      slot_calls d.calls = [.esp_ota_set_boot_partition none, .esp_restart]) ∧
    (∃ d, app_main source_config esp_idf (boot_env (fun _ => false) (env_invalid_ota_2 []))
        dev_pending = .restarted d ∧
      d.running_state = .ESP_OTA_IMG_PENDING_VERIFY ∧ d.boot = ota_2 ∧
      slot_calls d.calls = [.esp_ota_set_boot_partition (some ota_2), .esp_restart]) :=
  ⟨⟨_, rfl, rfl, rfl, rfl⟩, ⟨_, rfl, rfl, rfl, rfl⟩⟩

/-! ## C10: the critical section of the event handler -/

/-- C10, the code at the failing input. On `WIFI_EVENT_AP_STADISCONNECTED` the handler
enters the critical section twice and never exits it, so the nesting depth after the handler
is 2 more than before; on `WIFI_EVENT_AP_STACONNECTED` it enters once and exits once. -/
theorem disconnect_handler_never_exits (s : Shared) :
    (wifi_event_handler esp_idf s esp_idf.WIFI_EVENT_AP_STADISCONNECTED).entered =
      s.entered + 2 ∧
    (wifi_event_handler esp_idf s esp_idf.WIFI_EVENT_AP_STADISCONNECTED).exited = s.exited ∧
    (wifi_event_handler esp_idf s esp_idf.WIFI_EVENT_AP_STADISCONNECTED).nesting =
      s.nesting + 2 ∧
    (wifi_event_handler esp_idf s esp_idf.WIFI_EVENT_AP_STACONNECTED).nesting = s.nesting := by
  refine ⟨rfl, rfl, ?_, ?_⟩
  · simp [wifi_event_handler, esp_idf, portENTER_CRITICAL, Shared.nesting]
    omega
  · simp [wifi_event_handler, esp_idf, portENTER_CRITICAL, portEXIT_CRITICAL, Shared.nesting]

end EspOtaAp
